import Mathlib

/-!
# Multi-part-upload coordination of the IOR S3 backend (`src/aiori-S3.c`)

A shallow embedding of `s3_connect`, `S3_Create_Or_Open`, `S3_Xfer` and
`S3_Close`.

Conventions of the embedding.

* A C string or byte buffer is a `List Nat` (one entry per byte, `0` is the
  NUL terminator).
* Every request to the store and every MPI call a rank makes is recorded, in
  program order, in the `trace` of a `Run`.  What the store answers and what a
  collective delivers are inputs of the embedded function: every request site
  of the source is executed at most once per call, so each site has its own
  input.
* `printf` output is not part of the state and is left out.
* The counters `i`, `rnk`, `part`, `rank`, `numTasksWorld` and
  `param->part_number` are natural numbers (signed overflow is undefined in C
  and is not modelled); `size_t` subtraction wraps modulo `2 ^ size_t_bits`.
* Constants, macros and the `IOR_param_t` fields come from headers that are
  not part of the sources at hand (`ior.h`, `iordef.h`, `aiori.h`, `aws4c.h`);
  the constants are the fields of `Consts`.
-/

namespace S3

/-! ## Constants and data model -/

/-- The constant `ETAG_SIZE` of line 140. -/
def ETAG_SIZE : Nat := 32

/-- The libcurl result code `CURLE_OK`. -/
def CURLE_OK : Nat := 0

/-- Constants of the missing headers, taken as parameters. -/
structure Consts where
  /-- The access code `WRITE` of `iordef.h`. -/
  WRITE : Nat
  /-- The verbosity level `VERBOSE_4` of `iordef.h`. -/
  VERBOSE_4 : Int
  /-- The open flag bit `IOR_TRUNC` of `aiori.h`. -/
  IOR_TRUNC : Nat
  /-- The bit `IOR_CURL_INIT` of `ior.h`. -/
  IOR_CURL_INIT : Nat
  /-- The bound `MAX_UPLOAD_ID_SIZE` of `ior.h`. -/
  MAX_UPLOAD_ID_SIZE : Nat
  /-- The width in bits of `size_t`. -/
  size_t_bits : Nat
deriving DecidableEq, Repr

/-- The address of a request, as formatted into `buff`. -/
inductive Url where
  /-- The plain object name; the empty name addresses the bucket. -/
  | obj (name : List Nat)
  /-- The format `"%s?uploads"`. -/
  | uploads (name : List Nat)
  /-- The format `"%s?partNumber=%d&uploadId=%s"`. -/
  | part (name : List Nat) (partNumber : Nat) (uploadId : List Nat)
  /-- The format `"%s?uploadId=%s"`. -/
  | complete (name : List Nat) (uploadId : List Nat)
deriving DecidableEq, Repr

/-- One chunk appended to the `xml` buffer of `S3_Close`. -/
inductive XmlItem where
  /-- The line `<CompleteMultipartUpload>`. -/
  | header
  /-- One `<Part>` element with its `PartNumber` and `ETag` arguments. -/
  | part (partNumber : Nat) (etag : List Nat)
  /-- The line `</CompleteMultipartUpload>`. -/
  | tail
deriving DecidableEq, Repr

/-- What a rank does that is visible outside of it. -/
inductive Event where
  | s3_head (url : Url)
  /-- A PUT of `len` body bytes. -/
  | s3_put (url : Url) (len : Nat)
  /-- A ranged GET. -/
  | s3_get (url : Url) (offset len : Nat)
  /-- The POST of `S3_Close`, with the completion document as body. -/
  | s3_post (url : Url) (body : List XmlItem)
  /-- The POST of `S3_Create_Or_Open`, without body. -/
  | s3_post2 (url : Url)
  | MPI_Bcast (count root : Nat)
  | MPI_Allreduce
  | MPI_Gather (count : Nat)
  | MPI_Barrier
  | MPI_Abort
  | exit
  /-- Modelled from the spec: the termination by one of the macros
  `AWS4C_CHECK`, `AWS4C_CHECK_OK`, `ERR_SIMPLE`, `MPI_CHECK` of the missing
  headers, which the spec calls fatal to the whole run. -/
  | fatal
  /-- A copy that reads past the end of its source: the call does not return. -/
  | fault
  | aws_reset_connection
deriving DecidableEq, Repr

/-- What the store answers to one request. -/
structure Response where
  /-- The `CURLcode` returned by the aws4c call. -/
  rc : Nat
  /-- The HTTP status, `io_buf->code`. -/
  code : Nat
  /-- The `ETag` header, `io_buf->eTag`. -/
  eTag : List Nat
deriving DecidableEq, Repr

/-- The fields of `IOR_param_t` the backend reads or writes. -/
structure IOR_param_t where
  /-- Field `open`: the access the file is opened for. -/
  open_ : Nat
  openFlags : Nat
  filePerProc : Bool
  offset : Nat
  curl_flags : Nat
  /-- The last response parsed into `io_buf`. -/
  io_buf : Response
  /-- The bytes written to the `etags` buffer; `write_count` is its length. -/
  etags : List Nat
  part_number : Nat
  UploadId : List Nat
deriving DecidableEq, Repr

/-- How a call ended. -/
inductive Status where
  | returned
  | aborted
deriving DecidableEq, Repr

/-- One call of a backend function on one rank. -/
structure Run where
  trace : List Event
  param : IOR_param_t
  status : Status
deriving DecidableEq, Repr

/-- The C library `strlen`: the number of bytes before the first NUL. -/
def strlen (s : List Nat) : Nat := (s.takeWhile (· ≠ 0)).length

/-- The bytes a `%s` conversion prints: those before the first NUL. -/
def cstring (s : List Nat) : List Nat := s.takeWhile (· ≠ 0)

/-- The `n` bytes at offset `off` of `src`, as `memcpy(dst, src + off, n)` reads
them when `off + n ≤ src.length`.  A copy that would read past the end of `src`
has no value: where the length is computed from an answer of the store (lines
554-556) the embedding of `S3_Xfer` compares `off + n` with `src.length` and
ends the call without return instead of copying.  In `S3_Close` the offsets
stay below `numTasksWorld * etag_data_size`, the size of `etag_vec`. -/
def memcpy (src : List Nat) (off n : Nat) : List Nat := (src.drop off).take n

/-- Writing `src` at the start of the buffer `dst`, as `memcpy(dst, src, n)`
with `n = src.length`; the buffer keeps its size. -/
def memcpy_to (dst src : List Nat) : List Nat := (src ++ dst.drop src.length).take dst.length

/-- Subtraction of `size_t` values: modulo `2 ^ w`. -/
def size_t_sub (w a b : Nat) : Nat := (a % 2 ^ w + (2 ^ w - b % 2 ^ w)) % 2 ^ w

/-- Modelled from the spec: the macro `AWS4C_OK` of `aws4c.h`, a success status
("200 OK" in the comments of `s3_connect`). -/
def AWS4C_OK (b : Response) : Bool := b.code == 200

/-! ## `S3_Close`: the completion document (lines 770-794) -/

/-- The variables of the two nested loops of lines 770-794. -/
structure PartLoop where
  /-- Offset of `etag_ptr` from `etag_vec`. -/
  etag_ptr : Nat
  part : Nat
  xml : List XmlItem
deriving DecidableEq, Repr

/-- Body of the loop over `rnk` (lines 776-792). -/
def rnkBody (etag_vec : List Nat) (etag_data_size : Nat) (s : PartLoop) : PartLoop :=
  let etag := memcpy etag_vec s.etag_ptr ETAG_SIZE
  { etag_ptr := s.etag_ptr + etag_data_size
    part := s.part + 1
    xml := s.xml ++ [XmlItem.part s.part etag] }

/-- The loop `for (rnk=0; rnk<numTasksWorld; ++rnk)` of line 774. -/
def rnkLoop (etag_vec : List Nat) (etag_data_size numTasksWorld : Nat) (s : PartLoop) :
    PartLoop :=
  (List.range numTasksWorld).foldl (fun s _ => rnkBody etag_vec etag_data_size s) s

/-- Body of the loop over `i` (lines 772-793). -/
def iBody (etag_vec : List Nat) (etag_data_size numTasksWorld : Nat) (s : PartLoop) (i : Nat) :
    PartLoop :=
  rnkLoop etag_vec etag_data_size numTasksWorld { s with etag_ptr := i * ETAG_SIZE }

/-- The document built by lines 749-797: header, the loop
`for (i=0; i<etag_count; ++i)` started with `part = 0`, tail. -/
def buildXml (etag_vec : List Nat) (etag_data_size etag_count numTasksWorld : Nat) :
    List XmlItem :=
  let s := (List.range etag_count).foldl (iBody etag_vec etag_data_size numTasksWorld)
    { etag_ptr := 0, part := 0, xml := [XmlItem.header] }
  s.xml ++ [XmlItem.tail]

/-! ## `s3_connect` (lines 172-239) -/

/-- A call that ends in a fatal event `e` after the trace `t`. -/
def Run.abort (t : List Event) (e : Event) (p : IOR_param_t) : Run :=
  { trace := t ++ [e], param := p, status := Status.aborted }

/-- The function `s3_connect`.  `bucket_head` and `bucket_put` are the
answers to the requests of lines 220 and 224. -/
def s3_connect (K : Consts) (bucket_head bucket_put : Response) (p : IOR_param_t) : Run :=
  if p.curl_flags &&& K.IOR_CURL_INIT ≠ 0 then
    { trace := [], param := p, status := Status.returned }
  else
    -- lines 207-211: fresh `io_buf` and `etags`
    let p1 := { p with etags := [] }
    -- line 220: AWS4C_CHECK( s3_head(param->io_buf, "") )
    let t1 := [Event.s3_head (Url.obj [])]
    if bucket_head.rc ≠ CURLE_OK then Run.abort t1 Event.fatal p1
    else
      let p2 := { p1 with io_buf := bucket_head }
      if bucket_head.code = 404 then
        -- line 224: AWS4C_CHECK( s3_put(param->io_buf, "") )
        let t2 := t1 ++ [Event.s3_put (Url.obj []) 0]
        if bucket_put.rc ≠ CURLE_OK then Run.abort t2 Event.fatal p2
        else
          let p3 := { p2 with io_buf := bucket_put }
          -- line 225: AWS4C_CHECK_OK
          if !AWS4C_OK bucket_put then Run.abort t2 Event.fatal p3
          else
            { trace := t2
              param := { p3 with curl_flags := p3.curl_flags ||| K.IOR_CURL_INIT }
              status := Status.returned }
      else
        -- line 229: AWS4C_CHECK_OK
        if !AWS4C_OK bucket_head then Run.abort t1 Event.fatal p2
        else
          { trace := t1
            param := { p2 with curl_flags := p2.curl_flags ||| K.IOR_CURL_INIT }
            status := Status.returned }

/-! ## `S3_Create_Or_Open` (lines 283-397) -/

/-- The inputs of one call of `S3_Create_Or_Open` on one rank. -/
structure OpenEnv where
  /-- Answer to the HEAD of the bucket (line 220). -/
  bucket_head : Response
  /-- Answer to the PUT of the bucket (line 224). -/
  bucket_put : Response
  /-- Answer to the HEAD of the object (line 310). -/
  head : Response
  /-- Answer to the zero-length PUT (line 324 or 342). -/
  put : Response
  /-- Answer to the POST of `?uploads` (line 348). -/
  post : Response
  /-- The parsed body of that answer: `none` when `xmlReadMemory` gives no
  document, `some none` when it has no `UploadId` element. -/
  xmlDoc : Option (Option (List Nat))
  /-- The buffer of rank 0 that `MPI_Bcast` sends (line 388). -/
  bcast : List Nat
deriving DecidableEq, Repr

/-- Lines 376-377: `memcpy(param->UploadId, upload_id, upload_id_len)`, then
`param->UploadId[upload_id_len] = 0`. -/
def save_UploadId (buf upload_id : List Nat) (upload_id_len : Nat) : List Nat :=
  (memcpy_to buf (upload_id.take upload_id_len)).set upload_id_len 0

/-- What `MPI_Bcast(buf, count, MPI_BYTE, 0, comm)` leaves in `buf` on a rank
other than the root: the first `count` bytes of the root's buffer `src`. -/
def MPI_Bcast_recv (count : Nat) (src buf : List Nat) : List Nat :=
  memcpy_to buf (src.take count)

/-- Lines 337-385: rank 0 of an N:1 write, after the trace `t`. -/
def open_rank0 (K : Consts) (testFileName : List Nat) (needs_reset : Bool) (env : OpenEnv)
    (t : List Event) (p : IOR_param_t) : Run :=
  -- lines 340-343: rank0 handles truncate
  let t1 := if needs_reset then t ++ [Event.s3_put (Url.obj testFileName) 0] else t
  if needs_reset && env.put.rc ≠ CURLE_OK then Run.abort t1 Event.fatal p
  else
    let p1 := if needs_reset then { p with io_buf := env.put } else p
    -- lines 346-348: POST request with URL+"?uploads"
    let t2 := t1 ++ [Event.s3_post2 (Url.uploads testFileName)]
    if env.post.rc ≠ CURLE_OK then Run.abort t2 Event.fatal p1
    else
      let p2 := { p1 with io_buf := env.post }
      match env.xmlDoc with
      | none => Run.abort t2 Event.fatal p2            -- line 356
      | some none => Run.abort t2 Event.fatal p2       -- line 362
      | some (some upload_id) =>
        let upload_id_len := strlen upload_id
        if upload_id_len > K.MAX_UPLOAD_ID_SIZE then
          Run.abort t2 Event.fatal p2                  -- line 372
        else
          let p3 := { p2 with UploadId := save_UploadId p2.UploadId upload_id upload_id_len }
          { trace := t2 ++ [Event.MPI_Bcast K.MAX_UPLOAD_ID_SIZE 0]
            param := p3
            status := Status.returned }

/-- Lines 316-396, after the trace `t` and with `needs_reset` computed. -/
def open_write (K : Consts) (rank : Nat) (testFileName : List Nat) (needs_reset : Bool)
    (env : OpenEnv) (t : List Event) (p : IOR_param_t) : Run :=
  if p.open_ = K.WRITE then
    if p.filePerProc then
      -- lines 322-325
      if needs_reset then
        let t1 := t ++ [Event.s3_put (Url.obj testFileName) 0]
        if env.put.rc ≠ CURLE_OK then Run.abort t1 Event.fatal p
        else { trace := t1, param := { p with io_buf := env.put }, status := Status.returned }
      else { trace := t, param := p, status := Status.returned }
    else if rank = 0 then open_rank0 K testFileName needs_reset env t p
    else
      -- line 388: recv UploadID from Rank 0
      { trace := t ++ [Event.MPI_Bcast K.MAX_UPLOAD_ID_SIZE 0]
        param := { p with UploadId := MPI_Bcast_recv K.MAX_UPLOAD_ID_SIZE env.bcast p.UploadId }
        status := Status.returned }
  else { trace := t, param := p, status := Status.returned }

/-- The function `S3_Create_Or_Open` on the rank `rank`. -/
def S3_Create_Or_Open (K : Consts) (rank : Nat) (testFileName : List Nat) (p : IOR_param_t)
    (createFile : Bool) (env : OpenEnv) : Run :=
  -- line 294: initialize curl, if needed
  let c := s3_connect K env.bucket_head env.bucket_put p
  match c.status with
  | Status.aborted => c
  | Status.returned =>
    -- lines 305-313: check whether object needs reset to zero-length
    if c.param.openFlags &&& K.IOR_TRUNC ≠ 0 then
      open_write K rank testFileName true env c.trace c.param
    else if createFile then
      let t := c.trace ++ [Event.s3_head (Url.obj testFileName)]
      if env.head.rc ≠ CURLE_OK then Run.abort t Event.fatal c.param
      else
        open_write K rank testFileName (!AWS4C_OK env.head) env t
          { c.param with io_buf := env.head }
    else open_write K rank testFileName false env c.trace c.param

/-! ## `S3_Xfer` (lines 463-602) -/

/-- The global part number of line 522, from the value of `param->part_number`
before its increment. -/
def part_number (local_counter numTasksWorld rank : Nat) : Nat :=
  local_counter * numTasksWorld + rank

/-- The function `S3_Xfer` on the rank `rank`; `verbose` is the global of that
name, `resp` the answer to the one request the call makes.  The list
`resp.eTag` is the storage of the tag string; `aws_iobuf_append` of lines
554-556 copies from it, and a length that reaches past it (as the wrapped
length of a string shorter than 2) ends the call without return. -/
def S3_Xfer (K : Consts) (rank numTasksWorld : Nat) (verbose : Int) (access : Nat)
    (file : List Nat) (length : Nat) (p : IOR_param_t) (resp : Response) : Run :=
  if access = K.WRITE then
    if p.filePerProc then
      -- lines 502-504, N:N
      let t := [Event.s3_put (Url.obj file) length]
      if resp.rc ≠ CURLE_OK then Run.abort t Event.fatal p
      else { trace := t, param := { p with io_buf := resp }, status := Status.returned }
    else
      -- line 522
      let part_no := part_number p.part_number numTasksWorld rank
      let p1 := { p with part_number := p.part_number + 1 }
      -- lines 523-539
      let t := [Event.s3_put (Url.part file part_no (cstring p1.UploadId)) length]
      if resp.rc ≠ CURLE_OK then Run.abort t Event.fatal p1
      else
        let p2 := { p1 with io_buf := resp }
        -- lines 541-548
        if verbose ≥ K.VERBOSE_4 ∧ strlen p2.io_buf.eTag ≠ ETAG_SIZE + 2 then
          Run.abort t Event.exit p2
        else
          -- lines 554-556
          let n := size_t_sub K.size_t_bits (strlen p2.io_buf.eTag) 2
          if 1 + n ≤ p2.io_buf.eTag.length then
            { trace := t
              param := { p2 with etags := p2.etags ++ memcpy p2.io_buf.eTag 1 n }
              status := Status.returned }
          else
            -- the copy of `n` bytes from `eTag + 1` runs past the tag string
            Run.abort t Event.fault p2
  else
    -- lines 581-591, READ or CHECK
    let t := [Event.s3_get (Url.obj file) p.offset length]
    if resp.rc ≠ CURLE_OK then Run.abort t Event.fatal p
    else { trace := t, param := { p with io_buf := resp }, status := Status.returned }

/-! ## `S3_Close` (lines 674-848) -/

/-- The inputs of one call of `S3_Close` on one rank. -/
structure CloseEnv where
  /-- The maximum delivered by `MPI_Allreduce` (line 701). -/
  etag_count_max : Nat
  /-- Whether the `malloc` of line 722 succeeds. -/
  malloc_ok : Bool
  /-- The content of `etag_vec` after `MPI_Gather` (line 728). -/
  etag_vec : List Nat
  /-- Answer to the POST of the completion document (line 809). -/
  post : Response
  /-- Whether `MPI_Barrier` reports success (line 836). -/
  barrier_ok : Bool
deriving DecidableEq, Repr

/-- Lines 836-847: the barrier, then the end of the function, after the trace `t`. -/
def close_barrier (env : CloseEnv) (t : List Event) (p : IOR_param_t) : Run :=
  let t1 := t ++ [Event.MPI_Barrier]
  if !env.barrier_ok then Run.abort t1 Event.fatal p
  else { trace := t1 ++ [Event.aws_reset_connection], param := p, status := Status.returned }

/-- The function `S3_Close` on the rank `rank`. -/
def S3_Close (K : Consts) (rank numTasksWorld : Nat) (fd : List Nat) (p : IOR_param_t)
    (env : CloseEnv) : Run :=
  if p.open_ = K.WRITE then
    if !p.filePerProc then
      -- lines 697-707
      let etag_data_size := p.etags.length
      let etag_count := etag_data_size / ETAG_SIZE
      let t := [Event.MPI_Allreduce]
      if etag_count ≠ env.etag_count_max then Run.abort t Event.MPI_Abort p
      else if rank ≠ 0 then
        -- lines 714-715
        close_barrier env (t ++ [Event.MPI_Gather etag_data_size]) p
      else
        -- lines 722-727
        if !env.malloc_ok then Run.abort t Event.MPI_Abort p
        else
          -- lines 728-729
          let t1 := t ++ [Event.MPI_Gather etag_data_size]
          -- lines 749-797
          let xml := buildXml env.etag_vec etag_data_size etag_count numTasksWorld
          -- lines 804-810
          let t2 := t1 ++ [Event.s3_post (Url.complete fd (cstring p.UploadId)) xml]
          if env.post.rc ≠ CURLE_OK then Run.abort t2 Event.fatal p
          else if !AWS4C_OK env.post then Run.abort t2 Event.fatal p
          else close_barrier env t2 p
    else
      -- line 841
      { trace := [Event.aws_reset_connection], param := p, status := Status.returned }
  else { trace := [], param := p, status := Status.returned }

/-! ## The collectives over all ranks -/

/-- What `MPI_Allreduce` with `MPI_MAX` delivers to every rank. -/
def MPI_Allreduce_MAX (vals : List Nat) : Nat := vals.foldl max 0

/-- What `MPI_Gather` leaves in the receive buffer of the root: the send
buffers in rank order. -/
def MPI_Gather_recv (sends : List (List Nat)) : List Nat := sends.flatten

/-- The value `etag_count` of line 698 on a rank. -/
def etag_count (p : IOR_param_t) : Nat := p.etags.length / ETAG_SIZE

/-- Whether an event is the entry into `MPI_Bcast`. -/
def isBcast : Event → Bool
  | Event.MPI_Bcast _ _ => true
  | _ => false

/-- Whether an event is the entry into `MPI_Gather`. -/
def isGather : Event → Bool
  | Event.MPI_Gather _ => true
  | _ => false

/-- Whether an event is the entry into `MPI_Barrier`. -/
def isBarrier : Event → Bool
  | Event.MPI_Barrier => true
  | _ => false

/-- The events of a trace up to and including the first one that satisfies `c`. -/
def upTo (c : Event → Bool) : List Event → List Event
  | [] => []
  | e :: t => if c e then [e] else e :: upTo c t

/-- Modelled from the spec: a rank that has entered a collective which some
other rank never enters does not get past it (a collective "completes only
once all have reached it", and an abort ends the run of every participant). -/
def Run.waitIn (c : Event → Bool) (r : Run) : Run :=
  if r.trace.any c then { trace := upTo c r.trace, param := r.param, status := Status.aborted }
  else r

/-- Modelled from the spec: the runs of all ranks around the collective `c`;
`runs` are the runs of the ranks as far as they get if `c` completes. -/
def collective (c : Event → Bool) (runs : List Run) : List Run :=
  if runs.all (fun r => r.trace.any c) then runs else runs.map (Run.waitIn c)

/-- What the collectives of `S3_Close` deliver when the ranks run on `ps`. -/
def closeEnv (ps : List IOR_param_t) (malloc_ok : Bool) (post : Response)
    (barrier_ok : Bool) : CloseEnv :=
  { etag_count_max := MPI_Allreduce_MAX (ps.map etag_count)
    malloc_ok := malloc_ok
    etag_vec := MPI_Gather_recv (ps.map (·.etags))
    post := post
    barrier_ok := barrier_ok }

/-- The run of `S3_Close` on every rank, rank `r` on `ps[r]`, as far as each
gets if the collectives complete. -/
def S3_Close_ranks (K : Consts) (fd : List Nat) (ps : List IOR_param_t) (malloc_ok : Bool)
    (post : Response) (barrier_ok : Bool) : List Run :=
  ps.enum.map (fun rp =>
    S3_Close K rp.1 ps.length fd rp.2 (closeEnv ps malloc_ok post barrier_ok))

/-- One collective call of `S3_Close` by all ranks. -/
def S3_Close_all (K : Consts) (fd : List Nat) (ps : List IOR_param_t) (malloc_ok : Bool)
    (post : Response) (barrier_ok : Bool) : List Run :=
  collective isBarrier (collective isGather
    (S3_Close_ranks K fd ps malloc_ok post barrier_ok))

/-- The run of `S3_Create_Or_Open` on every rank, rank `r` on the parameters
and with the answers of `pes[r]`, as far as each gets if the broadcast
completes.  What `MPI_Bcast` delivers is the `UploadId` buffer of rank 0 when
rank 0 enters the broadcast; otherwise nothing is delivered. -/
def S3_Create_Or_Open_ranks (K : Consts) (testFileName : List Nat) (createFile : Bool) :
    List (IOR_param_t × OpenEnv) → List Run
  | [] => []
  | (p0, e0) :: rest =>
    let r0 := S3_Create_Or_Open K 0 testFileName p0 createFile e0
    r0 :: rest.enum.map (fun x =>
      S3_Create_Or_Open K (x.1 + 1) testFileName x.2.1 createFile
        { x.2.2 with
          bcast := if r0.trace.any isBcast then r0.param.UploadId else x.2.1.UploadId })

/-- One collective call of `S3_Create_Or_Open` by all ranks. -/
def S3_Create_Or_Open_all (K : Consts) (testFileName : List Nat) (createFile : Bool)
    (pes : List (IOR_param_t × OpenEnv)) : List Run :=
  collective isBcast (S3_Create_Or_Open_ranks K testFileName createFile pes)

/-! ## Definitions used in the statements -/

/-- The `<Part>` elements appended by the first `m` rounds of the loop over `i`. -/
def partRows (etag_vec : List Nat) (etag_data_size numTasksWorld m : Nat) : List XmlItem :=
  (List.range m).flatMap (fun i => (List.range numTasksWorld).map (fun r =>
    XmlItem.part (i * numTasksWorld + r)
      (memcpy etag_vec (i * ETAG_SIZE + r * etag_data_size) ETAG_SIZE)))

/-- The part numbers of a completion document, in document order. -/
def partNumbers (xml : List XmlItem) : List Nat :=
  xml.filterMap (fun x => match x with
    | XmlItem.part n _ => some n
    | _ => none)

/-- The completion documents a run posts. -/
def Run.documents (r : Run) : List (List XmlItem) :=
  r.trace.filterMap (fun e => match e with
    | Event.s3_post _ body => some body
    | _ => none)

/-- Whether an event is a session-initiation request. -/
def isSessionInit : Event → Bool
  | Event.s3_post2 _ => true
  | _ => false

/-- The events of rank 0 in `S3_Create_Or_Open` from the session-initiation
request on (lines 346-384). -/
def sessionTail (K : Consts) (name : List Nat) (env : OpenEnv) : List Event :=
  Event.s3_post2 (Url.uploads name) ::
    (if env.post.rc ≠ CURLE_OK then [Event.fatal]
     else match env.xmlDoc with
      | some (some upload_id) =>
        if strlen upload_id > K.MAX_UPLOAD_ID_SIZE then [Event.fatal]
        else [Event.MPI_Bcast K.MAX_UPLOAD_ID_SIZE 0]
      | _ => [Event.fatal])

/-- Whether an event is a part upload: a PUT whose address carries a part
number and a session identity. -/
def isPartUpload : Event → Bool
  | Event.s3_put (Url.part _ _ _) _ => true
  | _ => false

/-- The byte counts of the `MPI_Gather` calls of a trace. -/
def gatherCounts (t : List Event) : List Nat :=
  t.filterMap (fun e => match e with
    | Event.MPI_Gather n => some n
    | _ => none)

/-- Modelled from the spec: the harness calls the transfer engine "once per
transfer call"; here successive write calls of `S3_Xfer` by one rank, one per
answer in `rs`, as long as each call returns. -/
def S3_Xfer_writes (K : Consts) (rank numTasksWorld : Nat) (verbose : Int) (file : List Nat)
    (length : Nat) : IOR_param_t → List Response → Run
  | p, [] => { trace := [], param := p, status := Status.returned }
  | p, r :: rs =>
    let x := S3_Xfer K rank numTasksWorld verbose K.WRITE file length p r
    match x.status with
    | Status.aborted => x
    | Status.returned =>
      let y := S3_Xfer_writes K rank numTasksWorld verbose file length x.param rs
      { trace := x.trace ++ y.trace, param := y.param, status := y.status }

/-- The characters of a string between its first and its last character. -/
def unwrapped (s : List Nat) : List Nat := (s.drop 1).dropLast

/-- The parameters of a rank that, holding `p`, closes the file, opens a file
again and makes the part writes answered by `rs`. -/
def later_session (K : Consts) (rank numTasksWorld : Nat) (fd name : List Nat)
    (createFile : Bool) (verbose : Int) (file : List Nat) (length : Nat) (p : IOR_param_t)
    (env : CloseEnv) (oenv : OpenEnv) (rs : List Response) : IOR_param_t :=
  (S3_Xfer_writes K rank numTasksWorld verbose file length
    (S3_Create_Or_Open K rank name (S3_Close K rank numTasksWorld fd p env).param
      createFile oenv).param rs).param

/-- The constants as IOR defines them, for the concrete runs below. -/
def K0 : Consts :=
  { WRITE := 0, VERBOSE_4 := 4, IOR_TRUNC := 32, IOR_CURL_INIT := 1,
    MAX_UPLOAD_ID_SIZE := 256, size_t_bits := 64 }

/-- An answer "200 OK" without tag. -/
def ok200 : Response := { rc := 0, code := 200, eTag := [] }

/-- The 32-byte tag of the write `l` of rank `r` in the concrete runs. -/
def tagB (r l : Nat) : List Nat := List.replicate ETAG_SIZE (97 + 3 * l + r)

/-- Parameters of a rank in an N:1 write, connected, with the ledger `etags`. -/
def paramB (etags : List Nat) : IOR_param_t :=
  { open_ := 0, openFlags := 0, filePerProc := false, offset := 0, curl_flags := 1,
    io_buf := ok200, etags := etags, part_number := etags.length / ETAG_SIZE,
    UploadId := List.replicate 257 0 }

/-- Scenario B: three ranks with two tags each. -/
def tagsB : List (List (List Nat)) :=
  [[tagB 0 0, tagB 0 1], [tagB 1 0, tagB 1 1], [tagB 2 0, tagB 2 1]]

/-- The parameters of the three ranks of scenario B at close time. -/
def psB : List IOR_param_t := tagsB.map (fun l => paramB l.flatten)

/-- Scenario A: one rank with three tags. -/
def paramA : IOR_param_t := paramB (tagB 0 0 ++ tagB 0 1 ++ tagB 0 2)

/-- Scenario D: rank 0 holds two tags, rank 1 holds three. -/
def psD : List IOR_param_t :=
  [paramB (tagB 0 0 ++ tagB 0 1), paramB (tagB 1 0 ++ tagB 1 1 ++ tagB 1 2)]

/-- Parameters of a rank in an N:1 write with an empty ledger. -/
def param0 : IOR_param_t := paramB []

/-- A tag between two quote characters, as the store returns it. -/
def quoted (tag : List Nat) : List Nat := [34] ++ tag ++ [34]

/-- Answers of a store on which the object does not exist yet (HEAD gives 404)
and every other request succeeds, the POST returning `upload_id`. -/
def envOk (upload_id : List Nat) : OpenEnv :=
  { bucket_head := ok200, bucket_put := ok200,
    head := { rc := 0, code := 404, eTag := [] },
    put := ok200, post := ok200, xmlDoc := some (some upload_id), bcast := [] }

/-- Parameters of a rank whose `UploadId` buffer holds no NUL byte. -/
def paramX : IOR_param_t := { param0 with UploadId := List.replicate 257 120 }

/-- Parameters of a rank that opens with the truncate flag. -/
def paramT : IOR_param_t := { param0 with openFlags := 32 }

/-- What the collectives deliver in scenario A when every step succeeds. -/
def envA : CloseEnv := closeEnv [paramA] true ok200 true

/-- Parameters of a rank in N:N mode that holds one tag and the counter 1. -/
def paramN : IOR_param_t := { paramB (tagB 0 0) with filePerProc := true }

/-- Two answers to part writes of rank 1, each with a well-formed tag. -/
def rsW : List Response :=
  [{ rc := CURLE_OK, code := 200, eTag := quoted (tagB 1 0) },
   { rc := CURLE_OK, code := 200, eTag := quoted (tagB 1 1) }]

/-- The parameters of two ranks after one N:1 part write each at verbosity 0:
rank 0 got a tag of 32 characters, rank 1 one of 40 characters. -/
def psG : List IOR_param_t :=
  [(S3_Xfer K0 0 2 0 K0.WRITE [102] 8 param0
      { rc := CURLE_OK, code := 200, eTag := quoted (tagB 0 0) }).param,
   (S3_Xfer K0 1 2 0 K0.WRITE [102] 8 param0
      { rc := CURLE_OK, code := 200,
        eTag := quoted (tagB 1 0 ++ [49, 50, 51, 52, 53, 54, 55, 56]) }).param]

/-- Scenario A followed by a second session of two part writes. -/
def paramL : IOR_param_t :=
  later_session K0 0 1 [102] [102] true 0 [102] 8 paramA envA (envOk [117, 49, 50]) rsW

/-! ## Lemmas on fixed-width records -/

theorem drop_flatten_records {α : Type} (w : Nat) :
    ∀ (bs : List (List α)) (j : Nat), (∀ b ∈ bs, b.length = w) →
      bs.flatten.drop (j * w) = (bs.drop j).flatten := by
  intro bs
  induction bs with
  | nil => intro j _; simp
  | cons b bs ih =>
    intro j h
    cases j with
    | zero => simp
    | succ j =>
      have hb : b.length = w := h b (List.mem_cons_self _ _)
      have hbs : ∀ c ∈ bs, c.length = w := fun c hc => h c (List.mem_cons_of_mem _ hc)
      have e : (j + 1) * w = b.length + j * w := by rw [hb]; ring
      rw [e, List.flatten_cons, List.drop_append, ih j hbs, List.drop_succ_cons]

theorem memcpy_flatten_records (w : Nat) (bs : List (List Nat)) (j k n : Nat) (b : List Nat)
    (hw : ∀ b ∈ bs, b.length = w) (hj : bs[j]? = some b) (hk : k + n ≤ w) :
    memcpy bs.flatten (j * w + k) n = memcpy b k n := by
  have hjl : j < bs.length := by
    rcases Nat.lt_or_ge j bs.length with h | h
    · exact h
    · rw [List.getElem?_eq_none h] at hj; cases hj
  have hb : b ∈ bs := List.getElem?_mem hj
  have hbl : b.length = w := hw b hb
  have hd : bs.drop j = b :: bs.drop (j + 1) := by
    rw [List.getElem?_eq_getElem hjl] at hj
    have := List.drop_eq_getElem_cons hjl
    rw [this]; congr 1; exact Option.some.inj hj
  unfold memcpy
  rw [← List.drop_drop, drop_flatten_records w bs j hw, hd, List.flatten_cons,
    List.drop_append_of_le_length (by omega), List.take_append_of_le_length]
  rw [List.length_drop]; omega

/-- Indexing the concatenation of `m` rows of `P` entries each. -/
theorem getElem?_rows {β : Type} (P : Nat) (f : Nat → Nat → β) :
    ∀ m : Nat,
      ((List.range m).flatMap (fun i => (List.range P).map (f i))).length = m * P ∧
      ∀ g, g < m * P →
        ((List.range m).flatMap (fun i => (List.range P).map (f i)))[g]? =
          some (f (g / P) (g % P)) := by
  intro m
  induction m with
  | zero => simp
  | succ m ih =>
    obtain ⟨hl, hg⟩ := ih
    rw [List.range_succ, List.flatMap_append]
    constructor
    · simp [hl]; ring
    · intro g hlt
      have hP : 0 < P := by
        rcases Nat.eq_zero_or_pos P with h | h
        · subst h; simp at hlt
        · exact h
      rcases Nat.lt_or_ge g (m * P) with h | h
      · rw [List.getElem?_append_left (by omega)]; exact hg g h
      · rw [List.getElem?_append_right (by omega), hl]
        have h1 : g - m * P < P := by
          have : (m + 1) * P = m * P + P := by ring
          omega
        have hdiv : g / P = m := by
          apply Nat.div_eq_of_lt_le
          · rw [Nat.mul_comm] at h; rwa [Nat.mul_comm]
          · rwa [Nat.mul_comm] at hlt ⊢
        have hmod : g % P = g - m * P := by
          have := Nat.div_add_mod g P
          rw [hdiv, Nat.mul_comm] at this; omega
        simp [h1, hdiv, hmod]

/-! ## The completion document of `S3_Close` -/

theorem rnkLoop_eq (vec : List Nat) (eds : Nat) :
    ∀ (n : Nat) (s : PartLoop), rnkLoop vec eds n s =
      { etag_ptr := s.etag_ptr + n * eds
        part := s.part + n
        xml := s.xml ++ (List.range n).map (fun r =>
          XmlItem.part (s.part + r) (memcpy vec (s.etag_ptr + r * eds) ETAG_SIZE)) } := by
  intro n
  induction n with
  | zero => intro s; simp [rnkLoop]
  | succ n ih =>
    intro s
    have e : rnkLoop vec eds (n + 1) s = rnkBody vec eds (rnkLoop vec eds n s) := by
      simp [rnkLoop, List.range_succ, List.foldl_append]
    rw [e, ih s]
    simp [rnkBody, List.range_succ, List.map_append]
    constructor <;> ring

theorem outerLoop_eq (vec : List Nat) (eds P : Nat) :
    ∀ m : Nat,
      ((List.range m).foldl (iBody vec eds P)
          { etag_ptr := 0, part := 0, xml := [XmlItem.header] }).part = m * P ∧
      ((List.range m).foldl (iBody vec eds P)
          { etag_ptr := 0, part := 0, xml := [XmlItem.header] }).xml =
        XmlItem.header :: partRows vec eds P m := by
  intro m
  induction m with
  | zero => simp [partRows]
  | succ m ih =>
    obtain ⟨h1, h2⟩ := ih
    rw [List.range_succ, List.foldl_append]
    simp only [List.foldl_cons, List.foldl_nil]
    rw [iBody, rnkLoop_eq]
    simp only [h1, h2, partRows, List.range_succ, List.flatMap_append]
    constructor
    · ring
    · simp

theorem buildXml_eq (vec : List Nat) (eds N P : Nat) :
    buildXml vec eds N P = XmlItem.header :: partRows vec eds P N ++ [XmlItem.tail] := by
  simp [buildXml, (outerLoop_eq vec eds P N).2]

theorem partNumbers_append (a b : List XmlItem) :
    partNumbers (a ++ b) = partNumbers a ++ partNumbers b := by
  simp [partNumbers]

theorem partNumbers_map_part (f : Nat → Nat) (g : Nat → List Nat) (l : List Nat) :
    partNumbers (l.map (fun r => XmlItem.part (f r) (g r))) = l.map f := by
  induction l with
  | nil => simp [partNumbers]
  | cons a l ih => simp_all [partNumbers]

theorem partNumbers_partRows (vec : List Nat) (eds P : Nat) :
    ∀ m : Nat, partNumbers (partRows vec eds P m) = List.range (m * P) := by
  intro m
  induction m with
  | zero => simp [partRows, partNumbers]
  | succ m ih =>
    have e : partRows vec eds P (m + 1) = partRows vec eds P m ++
        (List.range P).map (fun r => XmlItem.part (m * P + r)
          (memcpy vec (m * ETAG_SIZE + r * eds) ETAG_SIZE)) := by
      simp [partRows, List.range_succ, List.flatMap_append]
    have e2 : (m + 1) * P = m * P + P := by ring
    rw [e, e2, List.range_add, ← ih, partNumbers_append, partNumbers_map_part]

theorem partNumbers_buildXml (vec : List Nat) (eds N P : Nat) :
    partNumbers (buildXml vec eds N P) = List.range (P * N) := by
  rw [buildXml_eq, Nat.mul_comm P N, ← partNumbers_partRows vec eds P N]
  simp [partNumbers, List.filterMap_append]

theorem length_buildXml (vec : List Nat) (eds N P : Nat) :
    (buildXml vec eds N P).length = P * N + 2 := by
  rw [buildXml_eq, partRows]
  simp [(getElem?_rows P _ N).1, Nat.mul_comm]

theorem S3_Close_rank0_documents (K : Consts) (P : Nat) (fd : List Nat) (p : IOR_param_t)
    (env : CloseEnv) (hw : p.open_ = K.WRITE) (hf : p.filePerProc = false)
    (hc : p.etags.length / ETAG_SIZE = env.etag_count_max) (hm : env.malloc_ok = true) :
    (S3_Close K 0 P fd p env).documents =
      [buildXml env.etag_vec p.etags.length (p.etags.length / ETAG_SIZE) P] := by
  simp only [S3_Close, close_barrier, Run.abort, hw, hf, hc, hm, Bool.not_false,
    Bool.not_true, if_true]
  split_ifs <;> simp_all [Run.documents]

theorem length_flatten_records {α : Type} (w : Nat) :
    ∀ l : List (List α), (∀ t ∈ l, t.length = w) → l.flatten.length = l.length * w := by
  intro l
  induction l with
  | nil => intro _; simp
  | cons a l ih =>
    intro h
    have ha : a.length = w := h a (List.mem_cons_self _ _)
    have hl := ih (fun t ht => h t (List.mem_cons_of_mem _ ht))
    simp [hl, ha]; ring

theorem memcpy_gathered (tags : List (List (List Nat))) (N : Nat)
    (hN : ∀ l ∈ tags, l.length = N) (h32 : ∀ l ∈ tags, ∀ t ∈ l, t.length = ETAG_SIZE)
    (r i : Nat) (l : List (List Nat)) (t : List Nat)
    (hr : tags[r]? = some l) (hi : l[i]? = some t) :
    memcpy (MPI_Gather_recv (tags.map List.flatten))
      (i * ETAG_SIZE + r * (N * ETAG_SIZE)) ETAG_SIZE = t := by
  have hl : l ∈ tags := List.getElem?_mem hr
  have ht : t ∈ l := List.getElem?_mem hi
  have hiN : i < N := by
    rw [← hN l hl]
    rcases Nat.lt_or_ge i l.length with h | h
    · exact h
    · rw [List.getElem?_eq_none h] at hi; cases hi
  have hw : ∀ b ∈ tags.map List.flatten, b.length = N * ETAG_SIZE := by
    intro b hb
    obtain ⟨l', hl', rfl⟩ := List.mem_map.1 hb
    rw [length_flatten_records ETAG_SIZE l' (h32 l' hl'), hN l' hl']
  have hb : (tags.map List.flatten)[r]? = some l.flatten := by
    rw [List.getElem?_map, hr]; rfl
  have hk : i * ETAG_SIZE + ETAG_SIZE ≤ N * ETAG_SIZE := by
    have : (i + 1) * ETAG_SIZE ≤ N * ETAG_SIZE := Nat.mul_le_mul_right _ hiN
    calc i * ETAG_SIZE + ETAG_SIZE = (i + 1) * ETAG_SIZE := by ring
      _ ≤ N * ETAG_SIZE := this
  unfold MPI_Gather_recv
  rw [Nat.add_comm, memcpy_flatten_records (N * ETAG_SIZE) _ r (i * ETAG_SIZE) ETAG_SIZE
    l.flatten hw hb hk]
  have := memcpy_flatten_records ETAG_SIZE l i 0 ETAG_SIZE t (h32 l hl) hi (by omega)
  rw [Nat.add_zero] at this
  rw [this]
  unfold memcpy
  rw [List.drop_zero, List.take_of_length_le (by rw [h32 l hl t ht])]

theorem getElem?_buildXml (tags : List (List (List Nat))) (P N : Nat)
    (hlen : tags.length = P) (hN : ∀ l ∈ tags, l.length = N)
    (h32 : ∀ l ∈ tags, ∀ t ∈ l, t.length = ETAG_SIZE) (g : Nat) (hg : g < P * N) :
    ∃ tag, (tags[g % P]?).bind (fun l => l[g / P]?) = some tag ∧
      (buildXml (MPI_Gather_recv (tags.map List.flatten)) (N * ETAG_SIZE) N P)[g + 1]? =
        some (XmlItem.part g tag) := by
  have hP : 0 < P := by
    rcases Nat.eq_zero_or_pos P with h | h
    · subst h; simp at hg
    · exact h
  have hr : g % P < tags.length := by rw [hlen]; exact Nat.mod_lt _ hP
  have hl : tags[g % P] ∈ tags := List.getElem_mem _
  have hi : g / P < (tags[g % P]).length := by
    rw [hN _ hl]; exact Nat.div_lt_of_lt_mul hg
  refine ⟨(tags[g % P])[g / P], ?_, ?_⟩
  · rw [List.getElem?_eq_getElem hr]
    simp [List.getElem?_eq_getElem hi]
  · have hrows := getElem?_rows P (fun i r => XmlItem.part (i * P + r)
      (memcpy (MPI_Gather_recv (tags.map List.flatten))
        (i * ETAG_SIZE + r * (N * ETAG_SIZE)) ETAG_SIZE)) N
    have hg' : g < N * P := by rwa [Nat.mul_comm]
    have key := hrows.2 g hg'
    rw [buildXml_eq, List.cons_append, List.getElem?_cons_succ,
      List.getElem?_append_left (by rw [partRows, hrows.1]; exact hg'), partRows, key]
    have e1 : g / P * P + g % P = g := by
      rw [Nat.mul_comm]; exact Nat.div_add_mod g P
    rw [e1, memcpy_gathered tags N hN h32 (g % P) (g / P) (tags[g % P]) _
      (List.getElem?_eq_getElem hr) (List.getElem?_eq_getElem hi)]

theorem foldl_max_const (N : Nat) :
    ∀ (vals : List Nat) (a : Nat), (∀ v ∈ vals, v = N) → a ≤ N → vals ≠ [] →
      vals.foldl max a = N := by
  intro vals
  induction vals with
  | nil => intro a _ _ h; exact absurd rfl h
  | cons v vals ih =>
    intro a h ha _
    have hv : v = N := h v (List.mem_cons_self _ _)
    have hm : max a v = N := by rw [hv]; exact Nat.max_eq_right ha
    rw [List.foldl_cons, hm]
    cases vals with
    | nil => rfl
    | cons w ws =>
      exact ih N (fun x hx => h x (List.mem_cons_of_mem _ hx)) (Nat.le_refl _) (by simp)

theorem getElem?_S3_Close_ranks (K : Consts) (fd : List Nat) (ps : List IOR_param_t)
    (malloc_ok : Bool) (post : Response) (barrier_ok : Bool) (r : Nat) :
    (S3_Close_ranks K fd ps malloc_ok post barrier_ok)[r]? =
      (ps[r]?).map (fun p =>
        S3_Close K r ps.length fd p (closeEnv ps malloc_ok post barrier_ok)) := by
  unfold S3_Close_ranks
  rw [List.getElem?_map, List.getElem?_enum]
  cases ps[r]? <;> rfl

theorem mem_S3_Close_ranks (K : Consts) (fd : List Nat) (ps : List IOR_param_t)
    (malloc_ok : Bool) (post : Response) (barrier_ok : Bool) (x : Run)
    (hx : x ∈ S3_Close_ranks K fd ps malloc_ok post barrier_ok) :
    ∃ r p, ps[r]? = some p ∧
      x = S3_Close K r ps.length fd p (closeEnv ps malloc_ok post barrier_ok) := by
  obtain ⟨r, hr⟩ := List.mem_iff_getElem?.1 hx
  rw [getElem?_S3_Close_ranks] at hr
  cases h : ps[r]? with
  | none => rw [h] at hr; cases hr
  | some p =>
    rw [h] at hr
    exact ⟨r, p, h, (Option.some.inj hr).symm⟩

theorem getElem?_collective (c : Event → Bool) (runs : List Run) (r : Nat) :
    (collective c runs)[r]? = (runs[r]?).map (fun x =>
      if runs.all (fun y => y.trace.any c) then x else Run.waitIn c x) := by
  unfold collective
  split_ifs with h
  · cases runs[r]? <;> rfl
  · rw [List.getElem?_map]

theorem S3_Close_reaches_gather (K : Consts) (rank P : Nat) (fd : List Nat)
    (p : IOR_param_t) (env : CloseEnv) (hw : p.open_ = K.WRITE) (hf : p.filePerProc = false)
    (hc : p.etags.length / ETAG_SIZE = env.etag_count_max)
    (hm : rank = 0 → env.malloc_ok = true) :
    (S3_Close K rank P fd p env).trace.any isGather = true := by
  unfold S3_Close
  simp only [hw, hf, hc]
  by_cases h0 : rank = 0
  · simp only [h0, hm h0]
    simp [close_barrier, Run.abort, isGather]
    split_ifs <;> simp [isGather]
  · simp [h0, close_barrier, Run.abort]
    split_ifs <;> simp [isGather]

theorem documents_waitIn_barrier (K : Consts) (rank P : Nat) (fd : List Nat)
    (p : IOR_param_t) (env : CloseEnv) :
    (Run.waitIn isBarrier (S3_Close K rank P fd p env)).documents =
      (S3_Close K rank P fd p env).documents := by
  simp only [S3_Close, close_barrier, Run.abort]
  split_ifs <;> simp [Run.waitIn, Run.documents, upTo, isBarrier]

theorem S3_Close_all_zero_documents (K : Consts) (fd : List Nat) (p0 : IOR_param_t)
    (rest : List IOR_param_t) (post : Response) (barrier_ok : Bool)
    (hmode : ∀ p ∈ p0 :: rest, p.open_ = K.WRITE ∧ p.filePerProc = false)
    (hcount : ∀ p ∈ p0 :: rest,
      etag_count p = MPI_Allreduce_MAX ((p0 :: rest).map etag_count)) :
    ((S3_Close_all K fd (p0 :: rest) true post barrier_ok)[0]?).map Run.documents =
      some (S3_Close K 0 (p0 :: rest).length fd p0
        (closeEnv (p0 :: rest) true post barrier_ok)).documents := by
  have hall : (S3_Close_ranks K fd (p0 :: rest) true post barrier_ok).all
      (fun y => y.trace.any isGather) = true := by
    rw [List.all_eq_true]
    intro x hx
    obtain ⟨r, p, hr, rfl⟩ := mem_S3_Close_ranks _ _ _ _ _ _ x hx
    have hp : p ∈ p0 :: rest := List.getElem?_mem hr
    exact S3_Close_reaches_gather K r _ fd p _ (hmode p hp).1 (hmode p hp).2
      (hcount p hp) (fun _ => rfl)
  unfold S3_Close_all
  rw [getElem?_collective]
  have hg : collective isGather (S3_Close_ranks K fd (p0 :: rest) true post barrier_ok) =
      S3_Close_ranks K fd (p0 :: rest) true post barrier_ok := by
    unfold collective; rw [if_pos hall]
  rw [hg, getElem?_S3_Close_ranks]
  simp only [List.getElem?_cons_zero, Option.map_some']
  split_ifs
  · rfl
  · rw [documents_waitIn_barrier]

/-- C1: for P >= 1 ranks whose ledgers each hold N tags of 32 bytes, the one
completion document that rank 0 posts in `S3_Close` has P*N part elements, and
its part number g carries the tag at index g div P of the ledger of rank
g mod P, that is the tag of the write numbered local*P + rank. -/
theorem C1_document_pairs_part_with_tag (K : Consts) (fd : List Nat) (P N : Nat)
    (ps : List IOR_param_t) (tags : List (List (List Nat))) (post : Response)
    (barrier_ok : Bool) (hP : 1 ≤ P) (hps : ps.length = P)
    (hmode : ∀ p ∈ ps, p.open_ = K.WRITE ∧ p.filePerProc = false)
    (hled : ps.map (·.etags) = tags.map List.flatten)
    (hN : ∀ l ∈ tags, l.length = N)
    (h32 : ∀ l ∈ tags, ∀ t ∈ l, t.length = ETAG_SIZE) :
    ∃ xml, ((S3_Close_all K fd ps true post barrier_ok)[0]?).map Run.documents = some [xml] ∧
      xml.length = P * N + 2 ∧
      ∀ g, g < P * N → ∃ tag, (tags[g % P]?).bind (fun l => l[g / P]?) = some tag ∧
        xml[g + 1]? = some (XmlItem.part g tag) ∧
        part_number (g / P) P (g % P) = g := by
  have hlen : tags.length = P := by
    have := congrArg List.length hled
    simpa [hps] using this.symm
  have hsize : ∀ p ∈ ps, p.etags.length = N * ETAG_SIZE := by
    intro p hp
    have : p.etags ∈ tags.map List.flatten := by
      rw [← hled]; exact List.mem_map.2 ⟨p, hp, rfl⟩
    obtain ⟨l, hl, e⟩ := List.mem_map.1 this
    rw [← e, length_flatten_records ETAG_SIZE l (h32 l hl), hN l hl]
  have hcount : ∀ v ∈ ps.map etag_count, v = N := by
    intro v hv
    obtain ⟨p, hp, rfl⟩ := List.mem_map.1 hv
    simp [etag_count, hsize p hp, ETAG_SIZE]
  cases ps with
  | nil => simp at hps; omega
  | cons p0 rest =>
    have hmax : MPI_Allreduce_MAX ((p0 :: rest).map etag_count) = N :=
      foldl_max_const N _ 0 hcount (Nat.zero_le _) (by simp)
    have h0 := hsize p0 (List.mem_cons_self _ _)
    have hdiv : p0.etags.length / ETAG_SIZE = N := by simp [h0, ETAG_SIZE]
    refine ⟨buildXml (MPI_Gather_recv (tags.map List.flatten)) (N * ETAG_SIZE) N P, ?_,
      length_buildXml _ _ _ _, ?_⟩
    · have hcm : ∀ p ∈ p0 :: rest,
          etag_count p = MPI_Allreduce_MAX ((p0 :: rest).map etag_count) := by
        intro p hp
        rw [hmax]; exact hcount _ (List.mem_map.2 ⟨p, hp, rfl⟩)
      rw [S3_Close_all_zero_documents K fd p0 rest post barrier_ok hmode hcm,
        S3_Close_rank0_documents K _ fd p0 _
        (hmode p0 (List.mem_cons_self _ _)).1 (hmode p0 (List.mem_cons_self _ _)).2
        (by rw [hdiv]; exact hmax.symm) rfl, hdiv]
      simp only [closeEnv, h0, hled, hps]
    · intro g hg
      obtain ⟨tag, h1, h2⟩ := getElem?_buildXml tags P N hlen hN h32 g hg
      refine ⟨tag, h1, h2, ?_⟩
      unfold part_number
      rw [Nat.mul_comm]; exact Nat.div_add_mod g P

theorem C1_witness_scenario_B :
    (1 ≤ 3 ∧ psB.length = 3 ∧ (∀ p ∈ psB, p.open_ = K0.WRITE ∧ p.filePerProc = false) ∧
      psB.map (·.etags) = tagsB.map List.flatten ∧ (∀ l ∈ tagsB, l.length = 2) ∧
      (∀ l ∈ tagsB, ∀ t ∈ l, t.length = ETAG_SIZE)) ∧
    ((S3_Close_all K0 [102] psB true ok200 true)[0]?).map Run.documents =
      some [[XmlItem.header, XmlItem.part 0 (tagB 0 0), XmlItem.part 1 (tagB 1 0),
        XmlItem.part 2 (tagB 2 0), XmlItem.part 3 (tagB 0 1), XmlItem.part 4 (tagB 1 1),
        XmlItem.part 5 (tagB 2 1), XmlItem.tail]] ∧
    ∃ xml, ((S3_Close_all K0 [102] psB true ok200 true)[0]?).map Run.documents = some [xml] ∧
      xml.length = 3 * 2 + 2 ∧
      ∀ g, g < 3 * 2 → ∃ tag, (tagsB[g % 3]?).bind (fun l => l[g / 3]?) = some tag ∧
        xml[g + 1]? = some (XmlItem.part g tag) ∧
        part_number (g / 3) 3 (g % 3) = g :=
  ⟨⟨by decide!, by decide!, by decide!, by decide!, by decide!, by decide!⟩, by decide!,
    C1_document_pairs_part_with_tag K0 [102] 3 2 psB tagsB ok200 true (by decide!) (by decide!)
      (by decide!) (by decide!) (by decide!) (by decide!)⟩

/-- C2: the part numbers rank 0 writes into the completion document of
`S3_Close` are exactly 0, 1, ..., P*N-1 in ascending order, each once, whatever
the gathered bytes are; the document is the only one the call posts. -/
theorem C2_part_numbers_contiguous (K : Consts) (P N : Nat) (fd : List Nat)
    (p : IOR_param_t) (env : CloseEnv) (hw : p.open_ = K.WRITE)
    (hf : p.filePerProc = false) (hN : p.etags.length = N * ETAG_SIZE)
    (hmax : env.etag_count_max = N) (hm : env.malloc_ok = true) :
    ∃ xml, (S3_Close K 0 P fd p env).documents = [xml] ∧
      partNumbers xml = List.range (P * N) ∧
      (partNumbers xml).Pairwise (· < ·) ∧ (partNumbers xml).Nodup ∧
      (partNumbers xml).length = P * N ∧ xml.length = P * N + 2 ∧
      ∀ g, g ∈ partNumbers xml ↔ g < P * N := by
  have hdiv : p.etags.length / ETAG_SIZE = N := by simp [hN, ETAG_SIZE]
  refine ⟨buildXml env.etag_vec p.etags.length N P, ?_, ?_⟩
  · rw [S3_Close_rank0_documents K P fd p env hw hf (by rw [hdiv, hmax]) hm, hdiv]
  · rw [partNumbers_buildXml]
    exact ⟨rfl, List.pairwise_lt_range _, List.nodup_range _, List.length_range _,
      length_buildXml _ _ _ _, fun g => List.mem_range⟩

theorem C2_witness_scenario_A :
    (paramA.open_ = K0.WRITE ∧ paramA.filePerProc = false ∧
      paramA.etags.length = 3 * ETAG_SIZE ∧
      (closeEnv [paramA] true ok200 true).etag_count_max = 3 ∧
      (closeEnv [paramA] true ok200 true).malloc_ok = true) ∧
    (S3_Close K0 0 1 [102] paramA (closeEnv [paramA] true ok200 true)).documents =
      [[XmlItem.header, XmlItem.part 0 (tagB 0 0), XmlItem.part 1 (tagB 0 1),
        XmlItem.part 2 (tagB 0 2), XmlItem.tail]] ∧
    ∃ xml, (S3_Close K0 0 1 [102] paramA (closeEnv [paramA] true ok200 true)).documents =
        [xml] ∧
      partNumbers xml = List.range (1 * 3) ∧
      (partNumbers xml).Pairwise (· < ·) ∧ (partNumbers xml).Nodup ∧
      (partNumbers xml).length = 1 * 3 ∧ xml.length = 1 * 3 + 2 ∧
      ∀ g, g ∈ partNumbers xml ↔ g < 1 * 3 :=
  ⟨⟨by decide!, by decide!, by decide!, by decide!, by decide!⟩, by decide!,
    C2_part_numbers_contiguous K0 1 3 [102] paramA (closeEnv [paramA] true ok200 true)
      (by decide!) (by decide!) (by decide!) (by decide!) (by decide!)⟩

/-- C3: for P >= 1 the part number `local * P + rank` that `S3_Xfer` puts into
its request determines the pair: `rank` is the number mod P, `local` is the
number div P, and two pairs with ranks below P that get the same number are
equal. -/
theorem C3_part_number_injective (K : Consts) (P l1 r1 l2 r2 : Nat) (hP : 1 ≤ P)
    (h1 : r1 < P) (h2 : r2 < P) :
    (∀ (verbose : Int) (file : List Nat) (len : Nat) (p : IOR_param_t) (resp : Response),
      p.filePerProc = false → p.part_number = l1 →
      (S3_Xfer K r1 P verbose K.WRITE file len p resp).trace.head? =
        some (Event.s3_put (Url.part file (part_number l1 P r1) (cstring p.UploadId)) len)) ∧
    part_number l1 P r1 % P = r1 ∧ part_number l1 P r1 / P = l1 ∧
    (part_number l1 P r1 = part_number l2 P r2 → r1 = r2 ∧ l1 = l2) := by
  have hmod : ∀ l r, r < P → part_number l P r % P = r := by
    intro l r hr
    unfold part_number
    rw [Nat.add_comm, Nat.add_mul_mod_self_right, Nat.mod_eq_of_lt hr]
  have hdiv : ∀ l r, r < P → part_number l P r / P = l := by
    intro l r hr
    unfold part_number
    rw [Nat.add_comm, Nat.add_mul_div_right _ _ (by omega), Nat.div_eq_of_lt hr, Nat.zero_add]
  refine ⟨?_, hmod l1 r1 h1, hdiv l1 r1 h1, ?_⟩
  · intro verbose file len p resp hf hl
    unfold S3_Xfer
    simp only [hf, hl, if_true, Bool.false_eq_true, if_false, Run.abort]
    split_ifs <;> rfl
  · intro h
    have e1 := hmod l1 r1 h1
    have e2 := hdiv l1 r1 h1
    rw [h, hmod l2 r2 h2] at e1
    rw [h, hdiv l2 r2 h2] at e2
    exact ⟨e1.symm, e2.symm⟩

theorem C3_witness :
    (1 ≤ 3 ∧ 2 < 3 ∧ 1 < 3) ∧
    ((∀ (verbose : Int) (file : List Nat) (len : Nat) (p : IOR_param_t) (resp : Response),
      p.filePerProc = false → p.part_number = 4 →
      (S3_Xfer K0 2 3 verbose K0.WRITE file len p resp).trace.head? =
        some (Event.s3_put (Url.part file (part_number 4 3 2) (cstring p.UploadId)) len)) ∧
    part_number 4 3 2 % 3 = 2 ∧ part_number 4 3 2 / 3 = 4 ∧
    (part_number 4 3 2 = part_number 5 3 1 → 2 = 1 ∧ 4 = 5)) :=
  ⟨⟨by decide, by decide, by decide⟩,
    C3_part_number_injective K0 3 4 2 5 1 (by decide) (by decide) (by decide)⟩

/-! ## The tag-count check of `S3_Close` -/

theorem S3_Close_mismatch (K : Consts) (rank P : Nat) (fd : List Nat) (p : IOR_param_t)
    (env : CloseEnv) (hw : p.open_ = K.WRITE) (hf : p.filePerProc = false)
    (hne : p.etags.length / ETAG_SIZE ≠ env.etag_count_max) :
    S3_Close K rank P fd p env = Run.abort [Event.MPI_Allreduce] Event.MPI_Abort p := by
  unfold S3_Close
  simp [hw, hf, hne]

theorem waitIn_gather_S3_Close (K : Consts) (rank P : Nat) (fd : List Nat) (p : IOR_param_t)
    (env : CloseEnv) (hw : p.open_ = K.WRITE) (hf : p.filePerProc = false) :
    Run.waitIn isGather (S3_Close K rank P fd p env) =
        Run.abort [Event.MPI_Allreduce] Event.MPI_Abort p ∨
      Run.waitIn isGather (S3_Close K rank P fd p env) =
        Run.abort [Event.MPI_Allreduce] (Event.MPI_Gather p.etags.length) p := by
  simp only [S3_Close, close_barrier, Run.abort, hw, hf, Bool.not_false, if_true]
  split_ifs <;> simp [Run.waitIn, upTo, isGather]

theorem collective_of_none (c : Event → Bool) (runs : List Run)
    (h : ∀ x ∈ runs, x.trace.any c = false) : collective c runs = runs := by
  unfold collective
  split_ifs
  · rfl
  · have : ∀ x ∈ runs, Run.waitIn c x = x := by
      intro x hx
      unfold Run.waitIn
      rw [h x hx]; rfl
    rw [List.map_congr_left this, List.map_id']

/-- C4: in an N:1 write close, a rank whose tag count differs from the maximum
over all ranks ends in `MPI_Abort` right after the reduction, before any
gather; then no rank gets past the gather, no completion document is posted
and no rank returns. -/
theorem C4_count_mismatch_aborts_before_gather (K : Consts) (fd : List Nat)
    (ps : List IOR_param_t) (malloc_ok : Bool) (post : Response) (barrier_ok : Bool)
    (r : Nat) (p : IOR_param_t)
    (hmode : ∀ q ∈ ps, q.open_ = K.WRITE ∧ q.filePerProc = false)
    (hr : ps[r]? = some p)
    (hne : etag_count p ≠ MPI_Allreduce_MAX (ps.map etag_count)) :
    (S3_Close_all K fd ps malloc_ok post barrier_ok)[r]? =
        some { trace := [Event.MPI_Allreduce, Event.MPI_Abort], param := p,
               status := Status.aborted } ∧
    ∀ x ∈ S3_Close_all K fd ps malloc_ok post barrier_ok,
      x.status = Status.aborted ∧ x.documents = [] ∧
      (x.trace = [Event.MPI_Allreduce, Event.MPI_Abort] ∨
        ∃ n, x.trace = [Event.MPI_Allreduce, Event.MPI_Gather n]) := by
  have hp : p ∈ ps := List.getElem?_mem hr
  have hrun : S3_Close K r ps.length fd p (closeEnv ps malloc_ok post barrier_ok) =
      Run.abort [Event.MPI_Allreduce] Event.MPI_Abort p :=
    S3_Close_mismatch K r _ fd p _ (hmode p hp).1 (hmode p hp).2 hne
  have hmem : Run.abort [Event.MPI_Allreduce] Event.MPI_Abort p ∈
      S3_Close_ranks K fd ps malloc_ok post barrier_ok := by
    rw [List.mem_iff_getElem?]
    exact ⟨r, by rw [getElem?_S3_Close_ranks, hr, Option.map_some', hrun]⟩
  have hnot : ¬ (S3_Close_ranks K fd ps malloc_ok post barrier_ok).all
      (fun y => y.trace.any isGather) = true := by
    intro h
    have := List.all_eq_true.1 h _ hmem
    simp [Run.abort, isGather] at this
  have hshape : ∀ x ∈ collective isGather (S3_Close_ranks K fd ps malloc_ok post barrier_ok),
      ∃ q, x = Run.abort [Event.MPI_Allreduce] Event.MPI_Abort q ∨
        x = Run.abort [Event.MPI_Allreduce] (Event.MPI_Gather q.etags.length) q := by
    intro x hx
    unfold collective at hx
    rw [if_neg hnot] at hx
    obtain ⟨y, hy, rfl⟩ := List.mem_map.1 hx
    obtain ⟨k, q, hk, rfl⟩ := mem_S3_Close_ranks _ _ _ _ _ _ y hy
    have hq : q ∈ ps := List.getElem?_mem hk
    exact ⟨q, waitIn_gather_S3_Close K k _ fd q _ (hmode q hq).1 (hmode q hq).2⟩
  have hnone : ∀ x ∈ collective isGather (S3_Close_ranks K fd ps malloc_ok post barrier_ok),
      x.trace.any isBarrier = false := by
    intro x hx
    obtain ⟨q, h | h⟩ := hshape x hx <;> simp [h, Run.abort, isBarrier]
  have hall : S3_Close_all K fd ps malloc_ok post barrier_ok =
      collective isGather (S3_Close_ranks K fd ps malloc_ok post barrier_ok) := by
    unfold S3_Close_all
    exact collective_of_none _ _ hnone
  constructor
  · rw [hall, getElem?_collective, getElem?_S3_Close_ranks, hr, Option.map_some',
      Option.map_some', if_neg hnot, hrun]
    simp [Run.waitIn, Run.abort, isGather]
  · intro x hx
    rw [hall] at hx
    obtain ⟨q, h | h⟩ := hshape x hx
    · simp [h, Run.abort, Run.documents]
    · simp [h, Run.abort, Run.documents]

theorem C4_witness_scenario_D :
    ((∀ q ∈ psD, q.open_ = K0.WRITE ∧ q.filePerProc = false) ∧
      psD[0]? = some (paramB (tagB 0 0 ++ tagB 0 1)) ∧
      etag_count (paramB (tagB 0 0 ++ tagB 0 1)) ≠ MPI_Allreduce_MAX (psD.map etag_count)) ∧
    S3_Close_all K0 [102] psD true ok200 true =
      [{ trace := [Event.MPI_Allreduce, Event.MPI_Abort],
         param := paramB (tagB 0 0 ++ tagB 0 1), status := Status.aborted },
       { trace := [Event.MPI_Allreduce, Event.MPI_Gather 96],
         param := paramB (tagB 1 0 ++ tagB 1 1 ++ tagB 1 2), status := Status.aborted }] ∧
    ((S3_Close_all K0 [102] psD true ok200 true)[0]? =
        some { trace := [Event.MPI_Allreduce, Event.MPI_Abort],
               param := paramB (tagB 0 0 ++ tagB 0 1), status := Status.aborted } ∧
    ∀ x ∈ S3_Close_all K0 [102] psD true ok200 true,
      x.status = Status.aborted ∧ x.documents = [] ∧
      (x.trace = [Event.MPI_Allreduce, Event.MPI_Abort] ∨
        ∃ n, x.trace = [Event.MPI_Allreduce, Event.MPI_Gather n])) :=
  ⟨⟨by decide!, rfl, by decide!⟩, by decide!,
    C4_count_mismatch_aborts_before_gather K0 [102] psD true ok200 true 0
      (paramB (tagB 0 0 ++ tagB 0 1)) (by decide!) rfl (by decide!)⟩

/-! ## Part writes of `S3_Xfer` -/

theorem S3_Xfer_part_returned (K : Consts) (rank P : Nat) (verbose : Int)
    (file : List Nat) (len : Nat) (p : IOR_param_t) (resp : Response)
    (hf : p.filePerProc = false) (hrc : resp.rc = CURLE_OK)
    (hchk : ¬ (verbose ≥ K.VERBOSE_4 ∧ strlen resp.eTag ≠ ETAG_SIZE + 2))
    (hin : 1 + size_t_sub K.size_t_bits (strlen resp.eTag) 2 ≤ resp.eTag.length) :
    S3_Xfer K rank P verbose K.WRITE file len p resp =
      { trace := [Event.s3_put
          (Url.part file (part_number p.part_number P rank) (cstring p.UploadId)) len]
        param := { p with
          part_number := p.part_number + 1
          io_buf := resp
          etags := p.etags ++
            memcpy resp.eTag 1 (size_t_sub K.size_t_bits (strlen resp.eTag) 2) }
        status := Status.returned } := by
  simp only [S3_Xfer, hf, if_true, Bool.false_eq_true, if_false, Run.abort]
  rw [if_neg (not_not.2 hrc), if_neg hchk, if_pos hin]

theorem S3_Xfer_part_exit (K : Consts) (rank P : Nat) (verbose : Int)
    (file : List Nat) (len : Nat) (p : IOR_param_t) (resp : Response)
    (hf : p.filePerProc = false) (hrc : resp.rc = CURLE_OK)
    (hchk : verbose ≥ K.VERBOSE_4 ∧ strlen resp.eTag ≠ ETAG_SIZE + 2) :
    S3_Xfer K rank P verbose K.WRITE file len p resp =
      { trace := [Event.s3_put
          (Url.part file (part_number p.part_number P rank) (cstring p.UploadId)) len,
          Event.exit]
        param := { p with part_number := p.part_number + 1, io_buf := resp }
        status := Status.aborted } := by
  simp only [S3_Xfer, hf, if_true, Bool.false_eq_true, if_false, Run.abort]
  rw [if_neg (not_not.2 hrc), if_pos hchk]
  rfl

theorem S3_Xfer_part_fault (K : Consts) (rank P : Nat) (verbose : Int)
    (file : List Nat) (len : Nat) (p : IOR_param_t) (resp : Response)
    (hf : p.filePerProc = false) (hrc : resp.rc = CURLE_OK)
    (hchk : ¬ (verbose ≥ K.VERBOSE_4 ∧ strlen resp.eTag ≠ ETAG_SIZE + 2))
    (hout : ¬ 1 + size_t_sub K.size_t_bits (strlen resp.eTag) 2 ≤ resp.eTag.length) :
    S3_Xfer K rank P verbose K.WRITE file len p resp =
      { trace := [Event.s3_put
          (Url.part file (part_number p.part_number P rank) (cstring p.UploadId)) len,
          Event.fault]
        param := { p with part_number := p.part_number + 1, io_buf := resp }
        status := Status.aborted } := by
  simp only [S3_Xfer, hf, if_true, Bool.false_eq_true, if_false, Run.abort]
  rw [if_neg (not_not.2 hrc), if_neg hchk, if_neg hout]
  rfl

/-- C5, the defect: at verbosity 0 a returned tag string of 5 characters (3
between its quotes) is not rejected: the call returns and the 3 characters
are appended to the ledger; the same answer at verbosity 4 ends the call in
`exit` with the ledger unchanged. -/
theorem C5_wrong_length_tag_is_stored :
    strlen (quoted [97, 98, 99]) - 2 ≠ ETAG_SIZE ∧
    (S3_Xfer K0 0 1 0 K0.WRITE [102] 8 param0
      { rc := CURLE_OK, code := 200, eTag := quoted [97, 98, 99] }).status = Status.returned ∧
    (S3_Xfer K0 0 1 0 K0.WRITE [102] 8 param0
      { rc := CURLE_OK, code := 200, eTag := quoted [97, 98, 99] }).param.etags =
        param0.etags ++ [97, 98, 99] ∧
    (S3_Xfer K0 0 1 4 K0.WRITE [102] 8 param0
      { rc := CURLE_OK, code := 200, eTag := quoted [97, 98, 99] }).status = Status.aborted ∧
    (S3_Xfer K0 0 1 4 K0.WRITE [102] 8 param0
      { rc := CURLE_OK, code := 200, eTag := quoted [97, 98, 99] }).trace.getLast? =
        some Event.exit ∧
    (S3_Xfer K0 0 1 4 K0.WRITE [102] 8 param0
      { rc := CURLE_OK, code := 200, eTag := quoted [97, 98, 99] }).param.etags =
        param0.etags := by
  decide!

/-- C6, the defect: a part upload that the store answers with a status other
than success, here any `code` with a well-formed tag of 34 characters, is not
fatal in `S3_Xfer`: the call returns and the tag is appended to the ledger,
at every verbosity. -/
theorem C6_nonsuccess_status_is_not_checked (code : Nat) (verbose : Int) :
    (S3_Xfer K0 0 1 verbose K0.WRITE [102] 8 param0
      { rc := CURLE_OK, code := code, eTag := quoted (tagB 0 0) }).status = Status.returned ∧
    (S3_Xfer K0 0 1 verbose K0.WRITE [102] 8 param0
      { rc := CURLE_OK, code := code, eTag := quoted (tagB 0 0) }).param.etags =
        param0.etags ++ tagB 0 0 ∧
    (S3_Xfer K0 0 1 4 K0.WRITE [102] 8 param0
      { rc := CURLE_OK, code := 500, eTag := quoted (tagB 0 0) }).trace =
        [Event.s3_put (Url.part [102] 0 []) 8] := by
  have hlen : strlen (quoted (tagB 0 0)) = ETAG_SIZE + 2 := by decide!
  have hcpy : memcpy (quoted (tagB 0 0)) 1 (size_t_sub K0.size_t_bits (ETAG_SIZE + 2) 2) =
      tagB 0 0 := by decide!
  have hnv : ¬ (verbose ≥ K0.VERBOSE_4 ∧ strlen (quoted (tagB 0 0)) ≠ ETAG_SIZE + 2) :=
    fun h => h.2 hlen
  have hin : 1 + size_t_sub K0.size_t_bits (strlen (quoted (tagB 0 0))) 2 ≤
      (quoted (tagB 0 0)).length := by decide!
  have h := S3_Xfer_part_returned K0 0 1 verbose [102] 8 param0
    { rc := CURLE_OK, code := code, eTag := quoted (tagB 0 0) } rfl rfl hnv hin
  refine ⟨by rw [h], ?_, by decide!⟩
  rw [h]
  simp only [hlen, hcpy]

/-! ## Lemmas on C strings and the `UploadId` buffer -/

theorem take_length_takeWhile {α : Type} (p : α → Bool) :
    ∀ l : List α, l.take (l.takeWhile p).length = l.takeWhile p := by
  intro l
  induction l with
  | nil => rfl
  | cons a l ih =>
    rw [List.takeWhile_cons]
    split
    · simp [ih]
    · simp

theorem take_strlen (s : List Nat) : s.take (strlen s) = cstring s :=
  take_length_takeWhile _ s

theorem cstring_ne_zero (s : List Nat) : ∀ x ∈ cstring s, x ≠ 0 := by
  intro x hx
  have := List.mem_takeWhile_imp hx
  simpa using this

theorem cstring_append_zero (a b : List Nat) (ha : ∀ x ∈ a, x ≠ 0) :
    cstring (a ++ 0 :: b) = a := by
  unfold cstring
  rw [List.takeWhile_append_of_pos (by simpa using ha)]
  simp [List.takeWhile]

theorem strlen_le_length (s : List Nat) : strlen s ≤ s.length := by
  unfold strlen
  exact (List.takeWhile_sublist _).length_le

theorem save_UploadId_eq (buf upload_id : List Nat)
    (hcap : strlen upload_id + 1 ≤ buf.length) :
    save_UploadId buf upload_id (strlen upload_id) =
      cstring upload_id ++ 0 :: buf.drop (strlen upload_id + 1) := by
  have hl : (cstring upload_id).length = strlen upload_id := rfl
  have hlt : strlen upload_id < buf.length := by omega
  unfold save_UploadId memcpy_to
  rw [take_strlen, hl, List.take_of_length_le (by rw [List.length_append, List.length_drop]; omega),
    List.set_append_right _ _ (by rw [hl]), hl, Nat.sub_self, List.drop_eq_getElem_cons hlt]
  rfl

theorem s3_connect_frame (K : Consts) (bh bp : Response) (p : IOR_param_t) :
    (s3_connect K bh bp p).param.UploadId = p.UploadId ∧
    (s3_connect K bh bp p).param.open_ = p.open_ ∧
    (s3_connect K bh bp p).param.filePerProc = p.filePerProc ∧
    (s3_connect K bh bp p).param.openFlags = p.openFlags ∧
    (s3_connect K bh bp p).trace.any isBcast = false := by
  unfold s3_connect
  split_ifs <;> simp [Run.abort, isBcast]

theorem s3_connect_no_init (K : Consts) (bh bp : Response) (p : IOR_param_t) :
    (s3_connect K bh bp p).trace.countP isSessionInit = 0 := by
  unfold s3_connect
  split_ifs <;> simp [Run.abort, isSessionInit]

/-! ## Session start in `S3_Create_Or_Open` -/

theorem open_write_rank0 (K : Consts) (name : List Nat) (nr : Bool) (env : OpenEnv)
    (t : List Event) (p : IOR_param_t) (hw : p.open_ = K.WRITE) (hf : p.filePerProc = false) :
    open_write K 0 name nr env t p = open_rank0 K name nr env t p := by
  simp [open_write, hw, hf]

theorem open_rank0_oversize (K : Consts) (name : List Nat) (nr : Bool) (env : OpenEnv)
    (t : List Event) (p : IOR_param_t) (upload_id : List Nat)
    (hdoc : env.xmlDoc = some (some upload_id))
    (h : K.MAX_UPLOAD_ID_SIZE < strlen upload_id) :
    (open_rank0 K name nr env t p).status = Status.aborted ∧
    (open_rank0 K name nr env t p).param.UploadId = p.UploadId ∧
    (open_rank0 K name nr env t p).trace.any isBcast = t.any isBcast := by
  simp only [open_rank0, hdoc, Run.abort]
  rw [if_pos h]
  split_ifs <;> cases nr <;> simp_all [isBcast]

theorem open_rank0_ok (K : Consts) (name : List Nat) (nr : Bool) (env : OpenEnv)
    (t : List Event) (p : IOR_param_t) (upload_id : List Nat)
    (hdoc : env.xmlDoc = some (some upload_id))
    (h : strlen upload_id ≤ K.MAX_UPLOAD_ID_SIZE)
    (hput : env.put.rc = CURLE_OK) (hpost : env.post.rc = CURLE_OK) :
    (open_rank0 K name nr env t p).status = Status.returned ∧
    (open_rank0 K name nr env t p).param.UploadId =
      save_UploadId p.UploadId upload_id (strlen upload_id) ∧
    (open_rank0 K name nr env t p).trace =
      t ++ (if nr then [Event.s3_put (Url.obj name) 0] else []) ++
        [Event.s3_post2 (Url.uploads name), Event.MPI_Bcast K.MAX_UPLOAD_ID_SIZE 0] := by
  simp only [open_rank0, hdoc, Run.abort, hput, hpost]
  rw [if_neg (not_lt.2 h)]
  cases nr <;> simp

/-- C7: on rank 0 of an N:1 write, a session identity longer than
`MAX_UPLOAD_ID_SIZE` makes `S3_Create_Or_Open` end fatally with the stored
identity untouched and no broadcast; one of length at most
`MAX_UPLOAD_ID_SIZE` is stored whole, followed by its terminator, when the
requests before it succeed at transport level. -/
theorem C7_oversized_identity_is_fatal (K : Consts) (name : List Nat) (p : IOR_param_t)
    (createFile : Bool) (env : OpenEnv) (upload_id : List Nat)
    (hw : p.open_ = K.WRITE) (hf : p.filePerProc = false)
    (hdoc : env.xmlDoc = some (some upload_id))
    (hcap : p.UploadId.length = K.MAX_UPLOAD_ID_SIZE + 1) :
    (K.MAX_UPLOAD_ID_SIZE < strlen upload_id →
      (S3_Create_Or_Open K 0 name p createFile env).status = Status.aborted ∧
      (S3_Create_Or_Open K 0 name p createFile env).param.UploadId = p.UploadId ∧
      (S3_Create_Or_Open K 0 name p createFile env).trace.any isBcast = false) ∧
    (strlen upload_id ≤ K.MAX_UPLOAD_ID_SIZE →
      (s3_connect K env.bucket_head env.bucket_put p).status = Status.returned →
      env.head.rc = CURLE_OK → env.put.rc = CURLE_OK → env.post.rc = CURLE_OK →
      (S3_Create_Or_Open K 0 name p createFile env).status = Status.returned ∧
      (S3_Create_Or_Open K 0 name p createFile env).param.UploadId =
        cstring upload_id ++ 0 :: p.UploadId.drop (strlen upload_id + 1) ∧
      cstring (S3_Create_Or_Open K 0 name p createFile env).param.UploadId =
        cstring upload_id ∧
      (S3_Create_Or_Open K 0 name p createFile env).trace.getLast? =
        some (Event.MPI_Bcast K.MAX_UPLOAD_ID_SIZE 0)) := by
  obtain ⟨fU, fo, ff, -, fb⟩ := s3_connect_frame K env.bucket_head env.bucket_put p
  unfold S3_Create_Or_Open
  simp only []
  generalize s3_connect K env.bucket_head env.bucket_put p = c at fU fo ff fb ⊢
  have hcw : c.param.open_ = K.WRITE := by rw [fo, hw]
  have hcf : c.param.filePerProc = false := by rw [ff, hf]
  have hsave := save_UploadId_eq p.UploadId upload_id
  cases hs : c.status with
  | aborted =>
    simp only [hs]
    exact ⟨fun _ => ⟨trivial, fU, fb⟩, fun _ h => by cases h⟩
  | returned =>
    simp only [hs]
    constructor
    · intro hbig
      split_ifs
      · rw [open_write_rank0 K name _ env _ _ hcw hcf]
        have := open_rank0_oversize K name true env c.trace c.param upload_id hdoc hbig
        rw [fU, fb] at this; exact this
      · simp [Run.abort, fU, fb, isBcast]
      · rw [open_write_rank0 K name _ env _ { c.param with io_buf := env.head } hcw hcf]
        have := open_rank0_oversize K name (!AWS4C_OK env.head) env
          (c.trace ++ [Event.s3_head (Url.obj name)]) { c.param with io_buf := env.head }
          upload_id hdoc hbig
        simpa [fU, fb, isBcast] using this
      · rw [open_write_rank0 K name _ env _ _ hcw hcf]
        have := open_rank0_oversize K name false env c.trace c.param upload_id hdoc hbig
        rw [fU, fb] at this; exact this
    · intro hle _ hhead hput hpost
      have hs2 := hsave (by rw [hcap]; omega)
      have fin : ∀ (nr : Bool) (t : List Event) (q : IOR_param_t),
          q.UploadId = p.UploadId →
          (open_rank0 K name nr env t q).status = Status.returned ∧
          (open_rank0 K name nr env t q).param.UploadId =
            cstring upload_id ++ 0 :: p.UploadId.drop (strlen upload_id + 1) ∧
          cstring (open_rank0 K name nr env t q).param.UploadId = cstring upload_id ∧
          (open_rank0 K name nr env t q).trace.getLast? =
            some (Event.MPI_Bcast K.MAX_UPLOAD_ID_SIZE 0) := by
        intro nr t q hq
        obtain ⟨h1, h2, h3⟩ := open_rank0_ok K name nr env t q upload_id hdoc hle hput hpost
        rw [hq, hs2] at h2
        refine ⟨h1, h2, ?_, ?_⟩
        · rw [h2, cstring_append_zero _ _ (cstring_ne_zero upload_id)]
        · rw [h3]; simp
      split_ifs <;> first
        | (rw [open_write_rank0 K name _ env _ c.param hcw hcf]; exact fin _ _ _ fU)
        | (rw [open_write_rank0 K name _ env _ { c.param with io_buf := env.head } hcw hcf]
           exact fin _ _ _ fU)
        | (rename_i h; exact absurd hhead h)

theorem C7_witness :
    (param0.open_ = K0.WRITE ∧ param0.filePerProc = false ∧
      (envOk [117, 49, 50]).xmlDoc = some (some [117, 49, 50]) ∧
      param0.UploadId.length = K0.MAX_UPLOAD_ID_SIZE + 1) ∧
    (S3_Create_Or_Open K0 0 [102] param0 true (envOk (List.replicate 257 97))).status =
      Status.aborted ∧
    ((K0.MAX_UPLOAD_ID_SIZE < strlen [117, 49, 50] →
      (S3_Create_Or_Open K0 0 [102] param0 true (envOk [117, 49, 50])).status =
        Status.aborted ∧
      (S3_Create_Or_Open K0 0 [102] param0 true (envOk [117, 49, 50])).param.UploadId =
        param0.UploadId ∧
      (S3_Create_Or_Open K0 0 [102] param0 true (envOk [117, 49, 50])).trace.any isBcast =
        false) ∧
    (strlen [117, 49, 50] ≤ K0.MAX_UPLOAD_ID_SIZE →
      (s3_connect K0 (envOk [117, 49, 50]).bucket_head (envOk [117, 49, 50]).bucket_put
        param0).status = Status.returned →
      (envOk [117, 49, 50]).head.rc = CURLE_OK → (envOk [117, 49, 50]).put.rc = CURLE_OK →
      (envOk [117, 49, 50]).post.rc = CURLE_OK →
      (S3_Create_Or_Open K0 0 [102] param0 true (envOk [117, 49, 50])).status =
        Status.returned ∧
      (S3_Create_Or_Open K0 0 [102] param0 true (envOk [117, 49, 50])).param.UploadId =
        cstring [117, 49, 50] ++ 0 :: param0.UploadId.drop (strlen [117, 49, 50] + 1) ∧
      cstring (S3_Create_Or_Open K0 0 [102] param0 true (envOk [117, 49, 50])).param.UploadId =
        cstring [117, 49, 50] ∧
      (S3_Create_Or_Open K0 0 [102] param0 true (envOk [117, 49, 50])).trace.getLast? =
        some (Event.MPI_Bcast K0.MAX_UPLOAD_ID_SIZE 0))) :=
  ⟨⟨by decide, by decide, by decide, by decide!⟩, by decide!,
    C7_oversized_identity_is_fatal K0 [102] param0 true (envOk [117, 49, 50]) [117, 49, 50]
      (by decide) (by decide) (by decide) (by decide!)⟩

theorem open_rank0_trace (K : Consts) (name : List Nat) (nr : Bool) (env : OpenEnv)
    (t : List Event) (p : IOR_param_t) :
    (open_rank0 K name nr env t p).trace =
      if nr then
        if env.put.rc ≠ CURLE_OK then t ++ [Event.s3_put (Url.obj name) 0, Event.fatal]
        else t ++ Event.s3_put (Url.obj name) 0 :: sessionTail K name env
      else t ++ sessionTail K name env := by
  unfold open_rank0 sessionTail
  cases nr
  · simp only [Bool.false_and, Bool.false_eq_true, if_false, Run.abort]
    by_cases hp : env.post.rc = CURLE_OK
    · rcases hx : env.xmlDoc with _ | _ | id
      · simp [hp]
      · simp [hp]
      · by_cases hl : strlen id > K.MAX_UPLOAD_ID_SIZE <;> simp [hp, hl]
    · simp [hp]
  · simp only [Bool.true_and, if_true, Run.abort]
    by_cases hq : env.put.rc = CURLE_OK
    · by_cases hp : env.post.rc = CURLE_OK
      · rcases hx : env.xmlDoc with _ | _ | id
        · simp [hp, hq]
        · simp [hp, hq]
        · by_cases hl : strlen id > K.MAX_UPLOAD_ID_SIZE <;> simp [hp, hq, hl]
      · simp [hp, hq]
    · simp [hq]

theorem sessionTail_props (K : Consts) (name : List Nat) (env : OpenEnv) :
    (sessionTail K name env).countP isSessionInit = 1 ∧
    (sessionTail K name env).head? = some (Event.s3_post2 (Url.uploads name)) ∧
    ∀ u len, Event.s3_put u len ∉ sessionTail K name env := by
  unfold sessionTail
  by_cases hp : env.post.rc = CURLE_OK
  · rcases hx : env.xmlDoc with _ | _ | id
    · simp [hp, isSessionInit]
    · simp [hp, isSessionInit]
    · by_cases hl : strlen id > K.MAX_UPLOAD_ID_SIZE <;> simp [hp, hl, isSessionInit]
  · simp [hp, isSessionInit]

theorem open_write_other (K : Consts) (rank : Nat) (name : List Nat) (nr : Bool)
    (env : OpenEnv) (t : List Event) (p : IOR_param_t) (hw : p.open_ = K.WRITE)
    (hf : p.filePerProc = false) (hr : rank ≠ 0) :
    open_write K rank name nr env t p =
      { trace := t ++ [Event.MPI_Bcast K.MAX_UPLOAD_ID_SIZE 0]
        param := { p with
          UploadId := MPI_Bcast_recv K.MAX_UPLOAD_ID_SIZE env.bcast p.UploadId }
        status := Status.returned } := by
  simp [open_write, hw, hf, hr]

theorem s3_connect_no_bcast (K : Consts) (bh bp : Response) (p : IOR_param_t) :
    (s3_connect K bh bp p).trace.countP isBcast = 0 := by
  unfold s3_connect
  split_ifs <;> simp [Run.abort, isBcast]

theorem open_rank0_count (K : Consts) (name : List Nat) (nr : Bool) (env : OpenEnv)
    (t : List Event) (p : IOR_param_t) (ht : t.countP isSessionInit = 0) :
    (open_rank0 K name nr env t p).trace.countP isSessionInit ≤ 1 ∧
    (env.put.rc = CURLE_OK →
      (open_rank0 K name nr env t p).trace.countP isSessionInit = 1) := by
  rw [open_rank0_trace]
  have h1 := (sessionTail_props K name env).1
  split_ifs with h2 h3
  · simp [List.countP_append, ht, isSessionInit, h3]
  · simp [List.countP_append, List.countP_cons, ht, isSessionInit, h1]
  · simp [List.countP_append, ht, h1]

/-- C8 fails as stated, for one prior content of the buffer of rank 1: when the
session identity has exactly `MAX_UPLOAD_ID_SIZE` (here 256) characters, its
terminator is at index 256 of the buffer of rank 0 and is not among the 256
bytes `MPI_Bcast` sends; rank 1, whose buffer held no NUL at index 256,
returns with a stored identity that reads on past the 256 characters of the
token.  With 255 characters the terminator is among the bytes sent and the
same buffer ends up with the identity of rank 0. -/
theorem C8_counterexample_terminator_not_broadcast :
    (S3_Create_Or_Open_all K0 [102] true
      [(param0, envOk (List.replicate 256 97)), (paramX, envOk (List.replicate 256 97))]).map
        (fun r => (r.status, cstring r.param.UploadId)) =
      [(Status.returned, List.replicate 256 97),
       (Status.returned, List.replicate 256 97 ++ [120])] ∧
    (S3_Create_Or_Open_all K0 [102] true
      [(param0, envOk (List.replicate 255 97)), (paramX, envOk (List.replicate 255 97))]).map
        (fun r => (r.status, cstring r.param.UploadId)) =
      [(Status.returned, List.replicate 255 97),
       (Status.returned, List.replicate 255 97)] ∧
    strlen (List.replicate 256 97) ≤ K0.MAX_UPLOAD_ID_SIZE ∧
    param0.UploadId.length = K0.MAX_UPLOAD_ID_SIZE + 1 ∧
    paramX.UploadId.length = K0.MAX_UPLOAD_ID_SIZE + 1 := by
  decide!

theorem take_append_zero (a z : List Nat) (n : Nat) (h : a.length < n) :
    (a ++ 0 :: z).take n = a ++ 0 :: z.take (n - a.length - 1) := by
  obtain ⟨k, hk⟩ : ∃ k, n - a.length = k + 1 := ⟨n - a.length - 1, by omega⟩
  rw [List.take_append_eq_append_take, List.take_of_length_le (by omega), hk,
    List.take_succ_cons]
  rfl

theorem MPI_Bcast_recv_terminated (M : Nat) (a d buf : List Nat)
    (hM : a.length ≤ M) (hb : buf.length = M + 1)
    (h0 : a.length < M ∨ buf[M]? = some 0) :
    ∃ y, MPI_Bcast_recv M (a ++ 0 :: d) buf = a ++ 0 :: y := by
  have hz : ∃ y, (a ++ 0 :: d).take M ++ buf.drop ((a ++ 0 :: d).take M).length =
      a ++ 0 :: y := by
    by_cases hlt : a.length < M
    · rw [take_append_zero a d M hlt, List.append_assoc, List.cons_append]
      exact ⟨_, rfl⟩
    · have hMeq : a.length = M := by omega
      have hbM : buf[M]? = some 0 := h0.resolve_left hlt
      have hMlt : M < buf.length := by omega
      have htake : (a ++ 0 :: d).take M = a := by
        rw [← hMeq]; exact List.take_left' rfl
      rw [htake, hMeq, List.drop_eq_getElem_cons hMlt,
        List.drop_of_length_le (by omega)]
      rw [List.getElem?_eq_getElem hMlt] at hbM
      rw [Option.some.inj hbM]
      exact ⟨_, rfl⟩
  obtain ⟨y, hy⟩ := hz
  unfold MPI_Bcast_recv memcpy_to
  rw [hy, hb, take_append_zero a y (M + 1) (by omega)]
  exact ⟨_, rfl⟩

theorem collective_of_all (c : Event → Bool) (runs : List Run)
    (h : ∀ x ∈ runs, x.trace.any c = true) : collective c runs = runs := by
  unfold collective
  rw [if_pos (List.all_eq_true.2 h)]

theorem open_rank0_reaches_bcast (K : Consts) (name : List Nat) (p : IOR_param_t)
    (createFile : Bool) (env : OpenEnv) (upload_id : List Nat)
    (hw : p.open_ = K.WRITE) (hf : p.filePerProc = false)
    (hdoc : env.xmlDoc = some (some upload_id))
    (hle : strlen upload_id ≤ K.MAX_UPLOAD_ID_SIZE)
    (hc : (s3_connect K env.bucket_head env.bucket_put p).status = Status.returned)
    (hhead : env.head.rc = CURLE_OK) (hput : env.put.rc = CURLE_OK)
    (hpost : env.post.rc = CURLE_OK) :
    (S3_Create_Or_Open K 0 name p createFile env).status = Status.returned ∧
    (S3_Create_Or_Open K 0 name p createFile env).param.UploadId =
      save_UploadId p.UploadId upload_id (strlen upload_id) ∧
    (S3_Create_Or_Open K 0 name p createFile env).trace.any isBcast = true := by
  obtain ⟨fU, fo, ff, -, -⟩ := s3_connect_frame K env.bucket_head env.bucket_put p
  unfold S3_Create_Or_Open
  simp only []
  generalize s3_connect K env.bucket_head env.bucket_put p = c at fU fo ff hc ⊢
  have hcw : c.param.open_ = K.WRITE := by rw [fo, hw]
  have hcf : c.param.filePerProc = false := by rw [ff, hf]
  simp only [hc]
  have fin : ∀ (nr : Bool) (t : List Event) (q : IOR_param_t),
      q.UploadId = p.UploadId →
      (open_rank0 K name nr env t q).status = Status.returned ∧
      (open_rank0 K name nr env t q).param.UploadId =
        save_UploadId p.UploadId upload_id (strlen upload_id) ∧
      (open_rank0 K name nr env t q).trace.any isBcast = true := by
    intro nr t q hq
    obtain ⟨h1, h2, h3⟩ := open_rank0_ok K name nr env t q upload_id hdoc hle hput hpost
    rw [hq] at h2
    refine ⟨h1, h2, ?_⟩
    rw [h3]; simp [isBcast]
  split_ifs <;> first
    | (rw [open_write_rank0 K name _ env _ c.param hcw hcf]; exact fin _ _ _ fU)
    | (rw [open_write_rank0 K name _ env _ { c.param with io_buf := env.head } hcw hcf]
       exact fin _ _ _ fU)
    | (rename_i h; exact absurd hhead h)

theorem open_other_reaches_bcast (K : Consts) (rank : Nat) (name : List Nat)
    (p : IOR_param_t) (createFile : Bool) (env : OpenEnv) (hr : rank ≠ 0)
    (hw : p.open_ = K.WRITE) (hf : p.filePerProc = false)
    (hc : (s3_connect K env.bucket_head env.bucket_put p).status = Status.returned)
    (hhead : env.head.rc = CURLE_OK) :
    (S3_Create_Or_Open K rank name p createFile env).status = Status.returned ∧
    (S3_Create_Or_Open K rank name p createFile env).param.UploadId =
      MPI_Bcast_recv K.MAX_UPLOAD_ID_SIZE env.bcast p.UploadId ∧
    (S3_Create_Or_Open K rank name p createFile env).trace.any isBcast = true := by
  obtain ⟨fU, fo, ff, -, -⟩ := s3_connect_frame K env.bucket_head env.bucket_put p
  unfold S3_Create_Or_Open
  simp only []
  generalize s3_connect K env.bucket_head env.bucket_put p = c at fU fo ff hc ⊢
  have hcw : c.param.open_ = K.WRITE := by rw [fo, hw]
  have hcf : c.param.filePerProc = false := by rw [ff, hf]
  simp only [hc]
  split_ifs <;> first
    | (rw [open_write_other K rank name _ env _ c.param hcw hcf hr]
       simp [fU, isBcast])
    | (rw [open_write_other K rank name _ env _ { c.param with io_buf := env.head } hcw hcf hr]
       simp [fU, isBcast])
    | (rename_i h; exact absurd hhead h)

/-- C8 as amended: after session start for an N:1 write in which every rank
reaches the broadcast, for every session identity of length at most
`MAX_UPLOAD_ID_SIZE` parsed by rank 0, every rank returns with a stored
identity buffer that holds the identity followed by NUL, so that, read as a
terminated string, it is that identity: for every prior content of the buffers
when the identity is shorter than `MAX_UPLOAD_ID_SIZE`, and, when it has
exactly `MAX_UPLOAD_ID_SIZE` characters, on every rank whose buffer already
holds NUL at index `MAX_UPLOAD_ID_SIZE`, the byte the broadcast does not
cover. -/
theorem C8_identity_shared_when_terminated (K : Consts) (name : List Nat)
    (createFile : Bool) (p0 : IOR_param_t) (e0 : OpenEnv)
    (rest : List (IOR_param_t × OpenEnv)) (upload_id : List Nat)
    (hdoc : e0.xmlDoc = some (some upload_id))
    (hle : strlen upload_id ≤ K.MAX_UPLOAD_ID_SIZE)
    (h0 : p0.open_ = K.WRITE ∧ p0.filePerProc = false ∧
      p0.UploadId.length = K.MAX_UPLOAD_ID_SIZE + 1 ∧
      (s3_connect K e0.bucket_head e0.bucket_put p0).status = Status.returned ∧
      e0.head.rc = CURLE_OK ∧ e0.put.rc = CURLE_OK ∧ e0.post.rc = CURLE_OK)
    (hrest : ∀ pe ∈ rest, pe.1.open_ = K.WRITE ∧ pe.1.filePerProc = false ∧
      pe.1.UploadId.length = K.MAX_UPLOAD_ID_SIZE + 1 ∧
      (s3_connect K pe.2.bucket_head pe.2.bucket_put pe.1).status = Status.returned ∧
      pe.2.head.rc = CURLE_OK ∧
      (strlen upload_id < K.MAX_UPLOAD_ID_SIZE ∨
        pe.1.UploadId[K.MAX_UPLOAD_ID_SIZE]? = some 0)) :
    (S3_Create_Or_Open_all K name createFile ((p0, e0) :: rest)).length = rest.length + 1 ∧
    ∀ run ∈ S3_Create_Or_Open_all K name createFile ((p0, e0) :: rest),
      run.status = Status.returned ∧
      (∃ y, run.param.UploadId = cstring upload_id ++ 0 :: y) ∧
      cstring run.param.UploadId = cstring upload_id ∧
      run.trace.any isBcast = true := by
  obtain ⟨hw0, hf0, hcap0, hc0, hh0, hput0, hpost0⟩ := h0
  obtain ⟨s0, u0, b0⟩ := open_rank0_reaches_bcast K name p0 createFile e0 upload_id
    hw0 hf0 hdoc hle hc0 hh0 hput0 hpost0
  rw [save_UploadId_eq p0.UploadId upload_id (by rw [hcap0]; omega)] at u0
  have key : ∀ run ∈ S3_Create_Or_Open_ranks K name createFile ((p0, e0) :: rest),
      run.status = Status.returned ∧
      (∃ y, run.param.UploadId = cstring upload_id ++ 0 :: y) ∧
      cstring run.param.UploadId = cstring upload_id ∧
      run.trace.any isBcast = true := by
    intro run hrun
    simp only [S3_Create_Or_Open_ranks, List.mem_cons, List.mem_map] at hrun
    rcases hrun with rfl | ⟨x, hx, rfl⟩
    · refine ⟨s0, ⟨_, u0⟩, ?_, b0⟩
      rw [u0, cstring_append_zero _ _ (cstring_ne_zero upload_id)]
    · have hmem : x.2 ∈ rest := by
        obtain ⟨i, hi⟩ := List.mem_iff_getElem?.1 hx
        rw [List.getElem?_enum] at hi
        cases h : rest[i]? with
        | none => rw [h] at hi; cases hi
        | some pe =>
          rw [h] at hi
          have : x = (i, pe) := (Option.some.inj hi).symm
          rw [this]
          exact List.getElem?_mem h
      obtain ⟨hw, hf, hcap, hc, hh, hz⟩ := hrest x.2 hmem
      obtain ⟨s, u, b⟩ := open_other_reaches_bcast K (x.1 + 1) name x.2.1 createFile
        { x.2.2 with
          bcast := if (S3_Create_Or_Open K 0 name p0 createFile e0).trace.any isBcast
            then (S3_Create_Or_Open K 0 name p0 createFile e0).param.UploadId
            else x.2.1.UploadId }
        (Nat.succ_ne_zero _) hw hf hc hh
      obtain ⟨y, hy⟩ := MPI_Bcast_recv_terminated K.MAX_UPLOAD_ID_SIZE (cstring upload_id)
        (p0.UploadId.drop (strlen upload_id + 1)) x.2.1.UploadId hle hcap hz
      have hU : (S3_Create_Or_Open K (x.1 + 1) name x.2.1 createFile
          { x.2.2 with
            bcast := if (S3_Create_Or_Open K 0 name p0 createFile e0).trace.any isBcast
              then (S3_Create_Or_Open K 0 name p0 createFile e0).param.UploadId
              else x.2.1.UploadId }).param.UploadId = cstring upload_id ++ 0 :: y := by
        rw [u]
        simp only [b0, if_true]
        rw [u0, hy]
      refine ⟨s, ⟨y, hU⟩, ?_, b⟩
      rw [hU, cstring_append_zero _ _ (cstring_ne_zero upload_id)]
  unfold S3_Create_Or_Open_all
  rw [collective_of_all isBcast _ (fun x hx => (key x hx).2.2.2)]
  refine ⟨?_, key⟩
  simp [S3_Create_Or_Open_ranks]

theorem C8_witness :
    ((envOk (List.replicate 256 97)).xmlDoc = some (some (List.replicate 256 97)) ∧
      strlen (List.replicate 256 97) ≤ K0.MAX_UPLOAD_ID_SIZE ∧
      param0.UploadId[K0.MAX_UPLOAD_ID_SIZE]? = some 0) ∧
    (S3_Create_Or_Open_all K0 [102] true
      [(param0, envOk (List.replicate 256 97)), (param0, envOk (List.replicate 256 97))]).map
        (fun r => (r.status, cstring r.param.UploadId)) =
      [(Status.returned, List.replicate 256 97), (Status.returned, List.replicate 256 97)] ∧
    ((S3_Create_Or_Open_all K0 [102] true
      [(param0, envOk (List.replicate 256 97)),
       (param0, envOk (List.replicate 256 97))]).length = 1 + 1 ∧
    ∀ run ∈ S3_Create_Or_Open_all K0 [102] true
        [(param0, envOk (List.replicate 256 97)), (param0, envOk (List.replicate 256 97))],
      run.status = Status.returned ∧
      (∃ y, run.param.UploadId = cstring (List.replicate 256 97) ++ 0 :: y) ∧
      cstring run.param.UploadId = cstring (List.replicate 256 97) ∧
      run.trace.any isBcast = true) :=
  ⟨⟨by decide!, by decide!, by decide!⟩, by decide!,
    C8_identity_shared_when_terminated K0 [102] true param0 (envOk (List.replicate 256 97))
      [(param0, envOk (List.replicate 256 97))] (List.replicate 256 97)
      (by decide!) (by decide!) (by decide!) (by
        intro pe hpe
        rw [List.mem_singleton] at hpe
        subst hpe
        decide!)⟩

/-- C9: in session start of an N:1 write, rank 0 issues the session-initiation
request at most once, and exactly once when the requests before it succeed at
transport level; a rank other than 0 issues no session-initiation request and,
after the connection set-up, nothing but the existence check and the broadcast
(no zero-length write), and it enters the broadcast exactly once. -/
theorem C9_only_rank0_initiates (K : Consts) (rank : Nat) (name : List Nat)
    (p : IOR_param_t) (createFile : Bool) (env : OpenEnv)
    (hw : p.open_ = K.WRITE) (hf : p.filePerProc = false) :
    (rank = 0 →
      (S3_Create_Or_Open K rank name p createFile env).trace.countP isSessionInit ≤ 1 ∧
      ((s3_connect K env.bucket_head env.bucket_put p).status = Status.returned →
        env.head.rc = CURLE_OK → env.put.rc = CURLE_OK →
        (S3_Create_Or_Open K rank name p createFile env).trace.countP isSessionInit = 1)) ∧
    (rank ≠ 0 →
      (S3_Create_Or_Open K rank name p createFile env).trace.countP isSessionInit = 0 ∧
      (∃ rest, (S3_Create_Or_Open K rank name p createFile env).trace =
          (s3_connect K env.bucket_head env.bucket_put p).trace ++ rest ∧
        ∀ e ∈ rest, e = Event.s3_head (Url.obj name) ∨
          e = Event.MPI_Bcast K.MAX_UPLOAD_ID_SIZE 0 ∨ e = Event.fatal) ∧
      ((s3_connect K env.bucket_head env.bucket_put p).status = Status.returned →
        env.head.rc = CURLE_OK →
        (S3_Create_Or_Open K rank name p createFile env).status = Status.returned ∧
        (S3_Create_Or_Open K rank name p createFile env).trace.countP isBcast = 1)) := by
  obtain ⟨-, fo, ff, -, -⟩ := s3_connect_frame K env.bucket_head env.bucket_put p
  have fi := s3_connect_no_init K env.bucket_head env.bucket_put p
  have fb := s3_connect_no_bcast K env.bucket_head env.bucket_put p
  unfold S3_Create_Or_Open
  simp only []
  generalize s3_connect K env.bucket_head env.bucket_put p = c at fo ff fi fb ⊢
  have hcw : c.param.open_ = K.WRITE := by rw [fo, hw]
  have hcf : c.param.filePerProc = false := by rw [ff, hf]
  have hi2 : (c.trace ++ [Event.s3_head (Url.obj name)]).countP isSessionInit = 0 := by
    simp [List.countP_append, fi, isSessionInit]
  constructor
  · intro h0
    subst h0
    cases hs : c.status with
    | aborted =>
      simp only [hs]
      exact ⟨by omega, fun h => by cases h⟩
    | returned =>
      simp only [hs]
      split_ifs with h1 h2 h3
      · rw [open_write_rank0 K name _ env _ c.param hcw hcf]
        have := open_rank0_count K name true env c.trace c.param fi
        exact ⟨this.1, fun _ _ hput => this.2 hput⟩
      · refine ⟨by simp [Run.abort, List.countP_append, fi, isSessionInit],
          fun _ hh _ => absurd hh h3⟩
      · rw [open_write_rank0 K name _ env _ { c.param with io_buf := env.head } hcw hcf]
        have := open_rank0_count K name (!AWS4C_OK env.head) env _
          { c.param with io_buf := env.head } hi2
        exact ⟨this.1, fun _ _ hput => this.2 hput⟩
      · rw [open_write_rank0 K name _ env _ c.param hcw hcf]
        have := open_rank0_count K name false env c.trace c.param fi
        exact ⟨this.1, fun _ _ hput => this.2 hput⟩
  · intro hr
    cases hs : c.status with
    | aborted =>
      simp only [hs]
      exact ⟨fi, ⟨[], by simp, by simp⟩, fun h => by cases h⟩
    | returned =>
      simp only [hs]
      split_ifs with h1 h2 h3
      · rw [open_write_other K rank name _ env _ c.param hcw hcf hr]
        refine ⟨by simp [List.countP_append, fi, isSessionInit], ⟨[_], rfl, by simp⟩, ?_⟩
        intro _ _
        simp [List.countP_append, fb, isBcast]
      · refine ⟨by simp [Run.abort, List.countP_append, fi, isSessionInit],
          ⟨[Event.s3_head (Url.obj name), Event.fatal], by simp [Run.abort], by simp⟩,
          fun _ hh => absurd hh h3⟩
      · rw [open_write_other K rank name _ env _ { c.param with io_buf := env.head } hcw hcf hr]
        refine ⟨by simp [List.countP_append, fi, isSessionInit],
          ⟨[Event.s3_head (Url.obj name), Event.MPI_Bcast K.MAX_UPLOAD_ID_SIZE 0],
            by simp, by simp⟩, ?_⟩
        intro _ _
        simp [List.countP_append, fb, isBcast]
      · rw [open_write_other K rank name _ env _ c.param hcw hcf hr]
        refine ⟨by simp [List.countP_append, fi, isSessionInit], ⟨[_], rfl, by simp⟩, ?_⟩
        intro _ _
        simp [List.countP_append, fb, isBcast]

theorem C9_witness :
    (paramX.open_ = K0.WRITE ∧ paramX.filePerProc = false) ∧
    (S3_Create_Or_Open K0 0 [102] param0 true (envOk [117, 49, 50])).trace =
      [Event.s3_head (Url.obj [102]), Event.s3_put (Url.obj [102]) 0,
       Event.s3_post2 (Url.uploads [102]), Event.MPI_Bcast 256 0] ∧
    (S3_Create_Or_Open K0 1 [102] paramX true (envOk [117, 49, 50])).trace =
      [Event.s3_head (Url.obj [102]), Event.MPI_Bcast 256 0] ∧
    ((1 = 0 →
      (S3_Create_Or_Open K0 1 [102] paramX true (envOk [117, 49, 50])).trace.countP
        isSessionInit ≤ 1 ∧
      ((s3_connect K0 (envOk [117, 49, 50]).bucket_head (envOk [117, 49, 50]).bucket_put
          paramX).status = Status.returned →
        (envOk [117, 49, 50]).head.rc = CURLE_OK → (envOk [117, 49, 50]).put.rc = CURLE_OK →
        (S3_Create_Or_Open K0 1 [102] paramX true (envOk [117, 49, 50])).trace.countP
          isSessionInit = 1)) ∧
    (1 ≠ 0 →
      (S3_Create_Or_Open K0 1 [102] paramX true (envOk [117, 49, 50])).trace.countP
        isSessionInit = 0 ∧
      (∃ rest, (S3_Create_Or_Open K0 1 [102] paramX true (envOk [117, 49, 50])).trace =
          (s3_connect K0 (envOk [117, 49, 50]).bucket_head (envOk [117, 49, 50]).bucket_put
            paramX).trace ++ rest ∧
        ∀ e ∈ rest, e = Event.s3_head (Url.obj [102]) ∨
          e = Event.MPI_Bcast K0.MAX_UPLOAD_ID_SIZE 0 ∨ e = Event.fatal) ∧
      ((s3_connect K0 (envOk [117, 49, 50]).bucket_head (envOk [117, 49, 50]).bucket_put
          paramX).status = Status.returned →
        (envOk [117, 49, 50]).head.rc = CURLE_OK →
        (S3_Create_Or_Open K0 1 [102] paramX true (envOk [117, 49, 50])).status =
          Status.returned ∧
        (S3_Create_Or_Open K0 1 [102] paramX true (envOk [117, 49, 50])).trace.countP
          isBcast = 1))) :=
  ⟨⟨by decide, by decide⟩, by decide!, by decide!,
    C9_only_rank0_initiates K0 1 [102] paramX true (envOk [117, 49, 50])
      (by decide) (by decide)⟩

/-- C10: on rank 0 of an N:1 write, once the connection is set up and the
existence check got an answer: when the truncate flag is set, or creation is
requested and the HEAD does not report success, exactly one zero-length PUT of
the object follows the check and precedes the session-initiation request, and
the call returns when PUT and POST succeed at transport level and the answer
holds an identity of accepted length, whatever status the HEAD reported;
otherwise no PUT is issued and the session-initiation request comes next. -/
theorem C10_reset_precedes_session_start (K : Consts) (name : List Nat) (p : IOR_param_t)
    (createFile : Bool) (env : OpenEnv)
    (hw : p.open_ = K.WRITE) (hf : p.filePerProc = false)
    (hconn : (s3_connect K env.bucket_head env.bucket_put p).status = Status.returned)
    (hhead : env.head.rc = CURLE_OK) :
    ((p.openFlags &&& K.IOR_TRUNC ≠ 0 ∨ (createFile = true ∧ AWS4C_OK env.head = false)) →
      ∃ pre rest, (S3_Create_Or_Open K 0 name p createFile env).trace =
          pre ++ Event.s3_put (Url.obj name) 0 :: rest ∧
        pre = (s3_connect K env.bucket_head env.bucket_put p).trace ++
          (if p.openFlags &&& K.IOR_TRUNC ≠ 0 then [] else [Event.s3_head (Url.obj name)]) ∧
        (∀ u len, Event.s3_put u len ∉ rest) ∧
        pre.countP isSessionInit = 0 ∧
        (env.put.rc = CURLE_OK → rest.head? = some (Event.s3_post2 (Url.uploads name))) ∧
        (env.put.rc = CURLE_OK → env.post.rc = CURLE_OK →
          ∀ upload_id, env.xmlDoc = some (some upload_id) →
            strlen upload_id ≤ K.MAX_UPLOAD_ID_SIZE →
            (S3_Create_Or_Open K 0 name p createFile env).status = Status.returned)) ∧
    (¬ (p.openFlags &&& K.IOR_TRUNC ≠ 0 ∨ (createFile = true ∧ AWS4C_OK env.head = false)) →
      ∃ rest, (S3_Create_Or_Open K 0 name p createFile env).trace =
          (s3_connect K env.bucket_head env.bucket_put p).trace ++ rest ∧
        (∀ u len, Event.s3_put u len ∉ rest) ∧
        rest.countP isSessionInit = 1) := by
  obtain ⟨-, fo, ff, fO, -⟩ := s3_connect_frame K env.bucket_head env.bucket_put p
  have fi := s3_connect_no_init K env.bucket_head env.bucket_put p
  unfold S3_Create_Or_Open
  simp only []
  generalize s3_connect K env.bucket_head env.bucket_put p = c at fo ff fO fi hconn ⊢
  have hcw : c.param.open_ = K.WRITE := by rw [fo, hw]
  have hcf : c.param.filePerProc = false := by rw [ff, hf]
  have hi2 : (c.trace ++ [Event.s3_head (Url.obj name)]).countP isSessionInit = 0 := by
    simp [List.countP_append, fi, isSessionInit]
  obtain ⟨st1, st2, st3⟩ := sessionTail_props K name env
  simp only [hconn]
  rw [← fO]
  constructor
  · intro hreset
    by_cases ht : c.param.openFlags &&& K.IOR_TRUNC ≠ 0
    · simp only [if_pos ht]
      rw [open_write_rank0 K name _ env _ c.param hcw hcf, open_rank0_trace]
      by_cases hq : env.put.rc = CURLE_OK
      · refine ⟨c.trace, sessionTail K name env, by simp [hq], by simp, st3, fi,
          fun _ => st2, ?_⟩
        intro _ hpost id hdoc hle
        exact (open_rank0_ok K name true env c.trace c.param id hdoc hle hq hpost).1
      · refine ⟨c.trace, [Event.fatal], by simp [hq], by simp, by simp, fi,
          fun h => absurd h hq, fun h => absurd h hq⟩
    · have hc : createFile = true ∧ AWS4C_OK env.head = false := by
        rcases hreset with h | h
        · exact absurd h ht
        · exact h
      simp only [if_neg ht, hc.1, if_true, hhead, ne_eq, not_true_eq_false, if_false, hc.2,
        Bool.not_false]
      rw [open_write_rank0 K name _ env _ { c.param with io_buf := env.head } hcw hcf,
        open_rank0_trace]
      by_cases hq : env.put.rc = CURLE_OK
      · refine ⟨_, sessionTail K name env, by simp [hq], rfl, st3, hi2, fun _ => st2, ?_⟩
        intro _ hpost id hdoc hle
        exact (open_rank0_ok K name true env _ _ id hdoc hle hq hpost).1
      · refine ⟨_, [Event.fatal], by simp [hq], rfl, by simp, hi2,
          fun h => absurd h hq, fun h => absurd h hq⟩
  · intro hno
    have ht : ¬ c.param.openFlags &&& K.IOR_TRUNC ≠ 0 := fun h => hno (Or.inl h)
    simp only [if_neg ht]
    by_cases hc : createFile = true
    · have hok : AWS4C_OK env.head = true := by
        by_contra h
        exact hno (Or.inr ⟨hc, by simpa using h⟩)
      simp only [hc, if_true, hhead, ne_eq, not_true_eq_false, if_false, hok, Bool.not_true]
      rw [open_write_rank0 K name _ env _ { c.param with io_buf := env.head } hcw hcf,
        open_rank0_trace]
      refine ⟨Event.s3_head (Url.obj name) :: sessionTail K name env, by simp, ?_, ?_⟩
      · intro u len hmem
        rcases List.mem_cons.1 hmem with h | h
        · cases h
        · exact st3 u len h
      · simp [List.countP_cons, st1, isSessionInit]
    · simp only [if_neg hc]
      rw [open_write_rank0 K name _ env _ c.param hcw hcf, open_rank0_trace]
      exact ⟨sessionTail K name env, by simp, st3, st1⟩

theorem C10_witness_scenario_C :
    (paramT.open_ = K0.WRITE ∧ paramT.filePerProc = false ∧
      (s3_connect K0 (envOk [117, 49, 50]).bucket_head (envOk [117, 49, 50]).bucket_put paramT).status = Status.returned ∧
      (envOk [117, 49, 50]).head.rc = CURLE_OK) ∧
    S3_Create_Or_Open K0 0 [102] paramT true (envOk [117, 49, 50]) =
      { trace := [Event.s3_put (Url.obj [102]) 0, Event.s3_post2 (Url.uploads [102]),
          Event.MPI_Bcast 256 0]
        param := { paramT with
          io_buf := ok200, UploadId := [117, 49, 50] ++ List.replicate 254 0 }
        status := Status.returned } ∧
    (((paramT.openFlags &&& K0.IOR_TRUNC ≠ 0 ∨
        (true = true ∧ AWS4C_OK (envOk [117, 49, 50]).head = false)) →
      ∃ pre rest, (S3_Create_Or_Open K0 0 [102] paramT true (envOk [117, 49, 50])).trace =
          pre ++ Event.s3_put (Url.obj [102]) 0 :: rest ∧
        pre = (s3_connect K0 (envOk [117, 49, 50]).bucket_head (envOk [117, 49, 50]).bucket_put paramT).trace ++
          (if paramT.openFlags &&& K0.IOR_TRUNC ≠ 0 then []
           else [Event.s3_head (Url.obj [102])]) ∧
        (∀ u len, Event.s3_put u len ∉ rest) ∧
        pre.countP isSessionInit = 0 ∧
        ((envOk [117, 49, 50]).put.rc = CURLE_OK → rest.head? = some (Event.s3_post2 (Url.uploads [102]))) ∧
        ((envOk [117, 49, 50]).put.rc = CURLE_OK → (envOk [117, 49, 50]).post.rc = CURLE_OK →
          ∀ upload_id, (envOk [117, 49, 50]).xmlDoc = some (some upload_id) →
            strlen upload_id ≤ K0.MAX_UPLOAD_ID_SIZE →
            (S3_Create_Or_Open K0 0 [102] paramT true (envOk [117, 49, 50])).status = Status.returned)) ∧
    (¬ (paramT.openFlags &&& K0.IOR_TRUNC ≠ 0 ∨
        (true = true ∧ AWS4C_OK (envOk [117, 49, 50]).head = false)) →
      ∃ rest, (S3_Create_Or_Open K0 0 [102] paramT true (envOk [117, 49, 50])).trace =
          (s3_connect K0 (envOk [117, 49, 50]).bucket_head (envOk [117, 49, 50]).bucket_put paramT).trace ++ rest ∧
        (∀ u len, Event.s3_put u len ∉ rest) ∧
        rest.countP isSessionInit = 1)) :=
  ⟨⟨by decide, by decide, by decide, by decide⟩, by decide!,
    C10_reset_precedes_session_start K0 [102] paramT true (envOk [117, 49, 50])
      (by decide) (by decide) (by decide) (by decide)⟩

/-! ## The barrier of `S3_Close` -/

/-- C11: in an N:1 write close the barrier is entered at most once; on rank 0
it is entered only after the finalize POST was issued and answered with
success, and an answer that is not a success ends the call fatally without
the barrier; a call that returns has entered the barrier exactly once, before
its last event, and the call does return when the tag counts agree, the
allocation and the finalize on rank 0 succeed and the barrier reports
success. -/
theorem C11_barrier_after_successful_finalize (K : Consts) (rank P : Nat) (fd : List Nat)
    (p : IOR_param_t) (env : CloseEnv) (hw : p.open_ = K.WRITE)
    (hf : p.filePerProc = false) :
    (rank = 0 → (S3_Close K rank P fd p env).trace.any isBarrier = true →
      env.post.rc = CURLE_OK ∧ AWS4C_OK env.post = true ∧
      ∃ xml rest, (S3_Close K rank P fd p env).trace =
        [Event.MPI_Allreduce, Event.MPI_Gather p.etags.length,
          Event.s3_post (Url.complete fd (cstring p.UploadId)) xml, Event.MPI_Barrier] ++
          rest) ∧
    (rank = 0 → (env.post.rc ≠ CURLE_OK ∨ AWS4C_OK env.post = false) →
      (S3_Close K rank P fd p env).status = Status.aborted ∧
      (S3_Close K rank P fd p env).trace.any isBarrier = false) ∧
    (S3_Close K rank P fd p env).trace.countP isBarrier ≤ 1 ∧
    ((S3_Close K rank P fd p env).status = Status.returned →
      (S3_Close K rank P fd p env).trace.countP isBarrier = 1 ∧
      ∃ pre, (S3_Close K rank P fd p env).trace =
        pre ++ [Event.MPI_Barrier, Event.aws_reset_connection]) ∧
    (p.etags.length / ETAG_SIZE = env.etag_count_max →
      (rank = 0 → env.malloc_ok = true ∧ env.post.rc = CURLE_OK ∧ AWS4C_OK env.post = true) →
      env.barrier_ok = true →
      (S3_Close K rank P fd p env).status = Status.returned) := by
  simp only [S3_Close, close_barrier, Run.abort, hw, hf, Bool.not_false, if_true]
  refine ⟨?_, ?_, ?_, ?_, ?_⟩
  · intro h0
    subst h0
    split_ifs <;> simp_all [isBarrier]
  · intro h0 hbad
    subst h0
    split_ifs <;> simp_all [isBarrier]
  · split_ifs <;> simp [isBarrier]
  · split_ifs <;> simp [isBarrier] <;>
      first | exact ⟨[_, _], rfl⟩ | exact ⟨[_, _, _], rfl⟩
  · intro hc h0 hb
    by_cases hr : rank = 0
    · obtain ⟨h1, h2, h3⟩ := h0 hr
      simp [hc, hr, h1, h2, h3, hb]
    · simp [hc, hr, hb]

theorem C11_witness :
    (paramA.open_ = K0.WRITE ∧ paramA.filePerProc = false) ∧
    (S3_Close K0 0 1 [102] paramA envA).trace.map (fun e => (isGather e, isBarrier e, e == Event.aws_reset_connection)) =
      [(false, false, false), (true, false, false), (false, false, false),
       (false, true, false), (false, false, true)] ∧
    ((0 = 0 → (S3_Close K0 0 1 [102] paramA envA).trace.any isBarrier = true →
      envA.post.rc = CURLE_OK ∧ AWS4C_OK envA.post = true ∧
      ∃ xml rest, (S3_Close K0 0 1 [102] paramA envA).trace =
        [Event.MPI_Allreduce, Event.MPI_Gather paramA.etags.length,
          Event.s3_post (Url.complete [102] (cstring paramA.UploadId)) xml,
          Event.MPI_Barrier] ++ rest) ∧
    (0 = 0 → (envA.post.rc ≠ CURLE_OK ∨ AWS4C_OK envA.post = false) →
      (S3_Close K0 0 1 [102] paramA envA).status = Status.aborted ∧ (S3_Close K0 0 1 [102] paramA envA).trace.any isBarrier = false) ∧
    (S3_Close K0 0 1 [102] paramA envA).trace.countP isBarrier ≤ 1 ∧
    ((S3_Close K0 0 1 [102] paramA envA).status = Status.returned →
      (S3_Close K0 0 1 [102] paramA envA).trace.countP isBarrier = 1 ∧
      ∃ pre, (S3_Close K0 0 1 [102] paramA envA).trace = pre ++ [Event.MPI_Barrier, Event.aws_reset_connection]) ∧
    (paramA.etags.length / ETAG_SIZE = envA.etag_count_max →
      (0 = 0 → envA.malloc_ok = true ∧ envA.post.rc = CURLE_OK ∧
        AWS4C_OK envA.post = true) →
      envA.barrier_ok = true →
      (S3_Close K0 0 1 [102] paramA envA).status = Status.returned)) :=
  ⟨⟨by decide, by decide⟩, by decide!,
    C11_barrier_after_successful_finalize K0 0 1 [102] paramA envA (by decide) (by decide)⟩

/-! ## Frame of `S3_Xfer` -/

/-- C12: a call of `S3_Xfer` that is a read, or a write in N:N mode, leaves
the part counter, the tag ledger and the session identity as they are and
issues no part upload, on every path; an N:1 write issues one part upload and
increments the counter, so a call that changes the counter or the ledger is
an N:1 write. -/
theorem C12_read_and_NN_write_frame (K : Consts) (rank P : Nat) (verbose : Int)
    (access : Nat) (file : List Nat) (len : Nat) (p : IOR_param_t) (resp : Response) :
    ((access ≠ K.WRITE ∨ p.filePerProc = true) →
      (S3_Xfer K rank P verbose access file len p resp).param.part_number = p.part_number ∧
      (S3_Xfer K rank P verbose access file len p resp).param.etags = p.etags ∧
      (S3_Xfer K rank P verbose access file len p resp).param.UploadId = p.UploadId ∧
      (S3_Xfer K rank P verbose access file len p resp).trace.any isPartUpload = false) ∧
    ((access = K.WRITE ∧ p.filePerProc = false) →
      (S3_Xfer K rank P verbose access file len p resp).param.part_number =
        p.part_number + 1 ∧
      (S3_Xfer K rank P verbose access file len p resp).param.UploadId = p.UploadId ∧
      (S3_Xfer K rank P verbose access file len p resp).trace.countP isPartUpload = 1) ∧
    (((S3_Xfer K rank P verbose access file len p resp).param.part_number ≠ p.part_number ∨
      (S3_Xfer K rank P verbose access file len p resp).param.etags ≠ p.etags) →
      access = K.WRITE ∧ p.filePerProc = false) := by
  have h1 : (access ≠ K.WRITE ∨ p.filePerProc = true) →
      (S3_Xfer K rank P verbose access file len p resp).param.part_number = p.part_number ∧
      (S3_Xfer K rank P verbose access file len p resp).param.etags = p.etags ∧
      (S3_Xfer K rank P verbose access file len p resp).param.UploadId = p.UploadId ∧
      (S3_Xfer K rank P verbose access file len p resp).trace.any isPartUpload = false := by
    intro h
    simp only [S3_Xfer, Run.abort]
    rcases h with h | h
    · rw [if_neg h]
      split_ifs <;> simp [isPartUpload]
    · simp only [h, if_true]
      split_ifs <;> simp [isPartUpload]
  refine ⟨h1, ?_, ?_⟩
  · rintro ⟨ha, hf⟩
    simp only [S3_Xfer, Run.abort, ha, hf, if_true, Bool.false_eq_true, if_false]
    split_ifs <;> simp [isPartUpload]
  · intro hch
    by_contra hn
    have hcase : access ≠ K.WRITE ∨ p.filePerProc = true := by
      by_cases ha : access = K.WRITE
      · right
        cases hfp : p.filePerProc with
        | true => rfl
        | false => exact absurd ⟨ha, hfp⟩ hn
      · exact Or.inl ha
    obtain ⟨e1, e2, -, -⟩ := h1 hcase
    rcases hch with h | h
    · exact h e1
    · exact h e2

theorem C12_witness :
    (S3_Xfer K0 0 1 0 K0.WRITE [102] 8 paramN ok200).param = paramN ∧
    (S3_Xfer K0 0 1 0 2 [102] 8 paramA ok200).param = paramA ∧
    (((2 : Nat) ≠ K0.WRITE ∨ paramA.filePerProc = true) →
      (S3_Xfer K0 0 1 0 2 [102] 8 paramA ok200).param.part_number = paramA.part_number ∧
      (S3_Xfer K0 0 1 0 2 [102] 8 paramA ok200).param.etags = paramA.etags ∧
      (S3_Xfer K0 0 1 0 2 [102] 8 paramA ok200).param.UploadId = paramA.UploadId ∧
      (S3_Xfer K0 0 1 0 2 [102] 8 paramA ok200).trace.any isPartUpload = false) :=
  ⟨by decide!, by decide!,
    (C12_read_and_NN_write_frame K0 0 1 0 2 [102] 8 paramA ok200).1⟩

/-! ## Sequences of part writes -/

theorem S3_Xfer_writes_cons (K : Consts) (rank P : Nat) (verbose : Int) (file : List Nat)
    (len : Nat) (p : IOR_param_t) (r : Response) (rs : List Response)
    (hf : p.filePerProc = false) (hrc : r.rc = CURLE_OK)
    (hchk : ¬ (verbose ≥ K.VERBOSE_4 ∧ strlen r.eTag ≠ ETAG_SIZE + 2))
    (hin : 1 + size_t_sub K.size_t_bits (strlen r.eTag) 2 ≤ r.eTag.length) :
    S3_Xfer_writes K rank P verbose file len p (r :: rs) =
      { trace := Event.s3_put
            (Url.part file (part_number p.part_number P rank) (cstring p.UploadId)) len ::
          (S3_Xfer_writes K rank P verbose file len
            { p with
              part_number := p.part_number + 1
              io_buf := r
              etags := p.etags ++
                memcpy r.eTag 1 (size_t_sub K.size_t_bits (strlen r.eTag) 2) } rs).trace
        param := (S3_Xfer_writes K rank P verbose file len
            { p with
              part_number := p.part_number + 1
              io_buf := r
              etags := p.etags ++
                memcpy r.eTag 1 (size_t_sub K.size_t_bits (strlen r.eTag) 2) } rs).param
        status := (S3_Xfer_writes K rank P verbose file len
            { p with
              part_number := p.part_number + 1
              io_buf := r
              etags := p.etags ++
                memcpy r.eTag 1 (size_t_sub K.size_t_bits (strlen r.eTag) 2) } rs).status } := by
  rw [S3_Xfer_writes, S3_Xfer_part_returned K rank P verbose file len p r hf hrc hchk hin]
  rfl

theorem S3_Xfer_writes_returned (K : Consts) (rank P : Nat) (verbose : Int) (file : List Nat)
    (len : Nat) :
    ∀ (rs : List Response) (p : IOR_param_t), p.filePerProc = false →
      (∀ r ∈ rs, r.rc = CURLE_OK ∧
        ¬ (verbose ≥ K.VERBOSE_4 ∧ strlen r.eTag ≠ ETAG_SIZE + 2) ∧
        1 + size_t_sub K.size_t_bits (strlen r.eTag) 2 ≤ r.eTag.length) →
      (S3_Xfer_writes K rank P verbose file len p rs).status = Status.returned ∧
      (S3_Xfer_writes K rank P verbose file len p rs).param.etags =
        p.etags ++ (rs.map (fun r =>
          memcpy r.eTag 1 (size_t_sub K.size_t_bits (strlen r.eTag) 2))).flatten ∧
      (S3_Xfer_writes K rank P verbose file len p rs).param.part_number =
        p.part_number + rs.length ∧
      (S3_Xfer_writes K rank P verbose file len p rs).param.UploadId = p.UploadId ∧
      (S3_Xfer_writes K rank P verbose file len p rs).param.filePerProc = false ∧
      (S3_Xfer_writes K rank P verbose file len p rs).param.open_ = p.open_ ∧
      (S3_Xfer_writes K rank P verbose file len p rs).trace =
        (List.range rs.length).map (fun k => Event.s3_put
          (Url.part file (part_number (p.part_number + k) P rank) (cstring p.UploadId)) len) := by
  intro rs
  induction rs with
  | nil => intro p hf _; simp [S3_Xfer_writes, hf]
  | cons r rs ih =>
    intro p hf h
    obtain ⟨hrc, hchk, hin⟩ := h r (List.mem_cons_self _ _)
    rw [S3_Xfer_writes_cons K rank P verbose file len p r rs hf hrc hchk hin]
    obtain ⟨i1, i2, i3, i4, i5, i6, i7⟩ := ih
      { p with
        part_number := p.part_number + 1
        io_buf := r
        etags := p.etags ++ memcpy r.eTag 1 (size_t_sub K.size_t_bits (strlen r.eTag) 2) }
      hf (fun x hx => h x (List.mem_cons_of_mem _ hx))
    refine ⟨i1, ?_, ?_, i4, i5, i6, ?_⟩
    · simp only [i2, List.map_cons, List.flatten_cons, List.append_assoc]
    · simp only [i3, List.length_cons]; omega
    · simp only [i7, List.length_cons, List.range_succ_eq_map, List.map_cons, List.map_map,
        Nat.add_zero]
      congr 1
      apply List.map_congr_left
      intro k _
      simp only [Function.comp, Nat.succ_eq_add_one]
      rw [show p.part_number + 1 + k = p.part_number + (k + 1) by omega]

theorem size_t_sub_of_le (w a b : Nat) (hba : b ≤ a) (ha : a < 2 ^ w) :
    size_t_sub w a b = a - b := by
  unfold size_t_sub
  rw [Nat.mod_eq_of_lt ha, Nat.mod_eq_of_lt (by omega : b < 2 ^ w)]
  have e : a + (2 ^ w - b) = (a - b) + 2 ^ w := by omega
  rw [e, Nat.add_mod_right, Nat.mod_eq_of_lt (by omega)]

theorem size_t_sub_wrap (w a b : Nat) (hab : a < b) (hb : b < 2 ^ w) :
    size_t_sub w a b = 2 ^ w - b + a := by
  unfold size_t_sub
  rw [Nat.mod_eq_of_lt (by omega : a < 2 ^ w), Nat.mod_eq_of_lt hb,
    Nat.mod_eq_of_lt (by omega)]
  omega

theorem append_in_bounds (w : Nat) (s : List Nat) (h2 : 2 ≤ strlen s)
    (hfit : strlen s < 2 ^ w) : 1 + size_t_sub w (strlen s) 2 ≤ s.length := by
  rw [size_t_sub_of_le w _ 2 h2 hfit]
  have := strlen_le_length s
  omega

theorem append_out_of_bounds (w : Nat) (s : List Nat) (hw : 2 ≤ w) (h2 : strlen s < 2)
    (hfit : s.length + 1 < 2 ^ w) : ¬ 1 + size_t_sub w (strlen s) 2 ≤ s.length := by
  have h4 : 2 ^ 2 ≤ 2 ^ w := Nat.pow_le_pow_right (by omega) hw
  rw [size_t_sub_wrap w _ 2 h2 (by omega)]
  omega

theorem memcpy_unwrapped (s : List Nat) :
    memcpy s 1 (strlen s - 2) = unwrapped (cstring s) := by
  have hl : (cstring s).length = strlen s := rfl
  unfold memcpy unwrapped
  rw [List.dropLast_eq_take, List.length_drop, hl, ← take_strlen, List.drop_take,
    List.take_take]
  congr 1
  omega

theorem length_unwrapped (s : List Nat) : (unwrapped s).length = s.length - 2 := by
  unfold unwrapped
  rw [List.length_dropLast, List.length_drop]
  omega

theorem take_flatten_records {α : Type} (w : Nat) :
    ∀ (bs : List (List α)) (j : Nat), (∀ b ∈ bs, b.length = w) →
      bs.flatten.take (w * j) = (bs.take j).flatten := by
  intro bs
  induction bs with
  | nil => intro j _; simp
  | cons b bs ih =>
    intro j h
    cases j with
    | zero => simp
    | succ j =>
      have hb : b.length = w := h b (List.mem_cons_self _ _)
      have hbs : ∀ c ∈ bs, c.length = w := fun c hc => h c (List.mem_cons_of_mem _ hc)
      have e : w * (j + 1) = b.length + w * j := by rw [hb]; ring
      rw [e, List.flatten_cons, List.take_append, ih j hbs, List.take_succ_cons,
        List.flatten_cons]

/-- C13: from an empty ledger and the counter 0, after the N:1 part writes
answered by `rs`, each with a tag string of 34 characters (32 between two
wrapping characters), the run has returned, the ledger is the concatenation
of the unwrapped tags in write order, of length 32 times their number, the
counter is their number, the tag at index k is the one of the write numbered
k*P + rank, and the ledger after the first k writes is a prefix of it. -/
theorem C13_ledger_is_concatenation_of_tags (K : Consts) (rank P : Nat) (verbose : Int)
    (file : List Nat) (len : Nat) (p : IOR_param_t) (rs : List Response)
    (hw : 6 ≤ K.size_t_bits) (hf : p.filePerProc = false) (he : p.etags = [])
    (hc : p.part_number = 0)
    (hrs : ∀ r ∈ rs, r.rc = CURLE_OK ∧ strlen r.eTag = ETAG_SIZE + 2) :
    (S3_Xfer_writes K rank P verbose file len p rs).status = Status.returned ∧
    (S3_Xfer_writes K rank P verbose file len p rs).param.etags =
      (rs.map (fun r => unwrapped (cstring r.eTag))).flatten ∧
    (S3_Xfer_writes K rank P verbose file len p rs).param.etags.length =
      ETAG_SIZE * rs.length ∧
    (S3_Xfer_writes K rank P verbose file len p rs).param.part_number = rs.length ∧
    (∀ k r, rs[k]? = some r →
      memcpy (S3_Xfer_writes K rank P verbose file len p rs).param.etags
        (k * ETAG_SIZE) ETAG_SIZE = unwrapped (cstring r.eTag) ∧
      (S3_Xfer_writes K rank P verbose file len p rs).trace[k]? =
        some (Event.s3_put (Url.part file (part_number k P rank) (cstring p.UploadId)) len)) ∧
    (∀ k, (S3_Xfer_writes K rank P verbose file len p (rs.take k)).param.etags =
      (S3_Xfer_writes K rank P verbose file len p rs).param.etags.take (ETAG_SIZE * k)) := by
  have h64 : 2 ^ 6 ≤ 2 ^ K.size_t_bits := Nat.pow_le_pow_right (by omega) hw
  have hstrip : ∀ r ∈ rs, memcpy r.eTag 1 (size_t_sub K.size_t_bits (strlen r.eTag) 2) =
      unwrapped (cstring r.eTag) := by
    intro r hr
    have hl := (hrs r hr).2
    rw [size_t_sub_of_le _ _ _ (by rw [hl]; simp [ETAG_SIZE])
      (by rw [hl]; simp only [ETAG_SIZE]; omega), memcpy_unwrapped]
  have hin : ∀ r ∈ rs, 1 + size_t_sub K.size_t_bits (strlen r.eTag) 2 ≤ r.eTag.length := by
    intro r hr
    have hl := (hrs r hr).2
    exact append_in_bounds _ _ (by rw [hl]; simp [ETAG_SIZE])
      (by rw [hl]; simp only [ETAG_SIZE]; omega)
  have hpass : ∀ (l : List Response), (∀ r ∈ l, r ∈ rs) → ∀ r ∈ l, r.rc = CURLE_OK ∧
      ¬ (verbose ≥ K.VERBOSE_4 ∧ strlen r.eTag ≠ ETAG_SIZE + 2) ∧
      1 + size_t_sub K.size_t_bits (strlen r.eTag) 2 ≤ r.eTag.length :=
    fun l hl r hr => ⟨(hrs r (hl r hr)).1, fun h => h.2 (hrs r (hl r hr)).2, hin r (hl r hr)⟩
  have hmap : ∀ (l : List Response), (∀ r ∈ l, r ∈ rs) →
      l.map (fun r => memcpy r.eTag 1 (size_t_sub K.size_t_bits (strlen r.eTag) 2)) =
      l.map (fun r => unwrapped (cstring r.eTag)) :=
    fun l hl => List.map_congr_left (fun r hr => hstrip r (hl r hr))
  have h32 : ∀ b ∈ rs.map (fun r => unwrapped (cstring r.eTag)), b.length = ETAG_SIZE := by
    intro b hb
    obtain ⟨r, hr, rfl⟩ := List.mem_map.1 hb
    have hl : (cstring r.eTag).length = ETAG_SIZE + 2 := (hrs r hr).2
    rw [length_unwrapped, hl]; rfl
  obtain ⟨s1, s2, s3, -, -, -, s7⟩ :=
    S3_Xfer_writes_returned K rank P verbose file len rs p hf (hpass rs (fun _ h => h))
  rw [he, List.nil_append, hmap rs (fun _ h => h)] at s2
  rw [hc, Nat.zero_add] at s3
  refine ⟨s1, s2, ?_, s3, ?_, ?_⟩
  · rw [s2, length_flatten_records ETAG_SIZE _ h32, List.length_map, Nat.mul_comm]
  · intro k r hk
    have hkl : k < rs.length := by
      rcases Nat.lt_or_ge k rs.length with h | h
      · exact h
      · rw [List.getElem?_eq_none h] at hk; cases hk
    constructor
    · have hb : (rs.map (fun r => unwrapped (cstring r.eTag)))[k]? =
          some (unwrapped (cstring r.eTag)) := by
        rw [List.getElem?_map, hk]; rfl
      have := memcpy_flatten_records ETAG_SIZE _ k 0 ETAG_SIZE _ h32 hb (by omega)
      rw [Nat.add_zero] at this
      rw [s2, this]
      unfold memcpy
      rw [List.drop_zero, List.take_of_length_le
        (by rw [h32 _ (List.getElem?_mem hb)])]
    · rw [s7, List.getElem?_map, List.getElem?_range hkl, hc]
      simp
  · intro k
    have hsub : ∀ r ∈ rs.take k, r ∈ rs := fun r hr => List.mem_of_mem_take hr
    obtain ⟨-, t2, -⟩ :=
      S3_Xfer_writes_returned K rank P verbose file len (rs.take k) p hf (hpass _ hsub)
    rw [he, List.nil_append, hmap _ hsub] at t2
    rw [t2, s2, take_flatten_records ETAG_SIZE _ k h32, List.map_take]

theorem C13_witness :
    ((6 : Nat) ≤ K0.size_t_bits ∧ param0.filePerProc = false ∧ param0.etags = [] ∧
      param0.part_number = 0 ∧
      ∀ r ∈ rsW, r.rc = CURLE_OK ∧ strlen r.eTag = ETAG_SIZE + 2) ∧
    (S3_Xfer_writes K0 1 3 4 [102] 8 param0 rsW).param.etags = tagB 1 0 ++ tagB 1 1 ∧
    (S3_Xfer_writes K0 1 3 4 [102] 8 param0 rsW).trace = [Event.s3_put (Url.part [102] 1 []) 8, Event.s3_put (Url.part [102] 4 []) 8] ∧
    (S3_Xfer_writes K0 1 3 4 [102] 8 param0 rsW).status = Status.returned ∧
    (S3_Xfer_writes K0 1 3 4 [102] 8 param0 rsW).param.etags = (rsW.map (fun r => unwrapped (cstring r.eTag))).flatten ∧
    (S3_Xfer_writes K0 1 3 4 [102] 8 param0 rsW).param.etags.length = ETAG_SIZE * rsW.length ∧
    (S3_Xfer_writes K0 1 3 4 [102] 8 param0 rsW).param.part_number = rsW.length :=
  have h := C13_ledger_is_concatenation_of_tags K0 1 3 4 [102] 8 param0 rsW
    (by decide) (by decide) (by decide) (by decide) (by decide!)
  ⟨⟨by decide, by decide, by decide, by decide, by decide!⟩, by decide!, by decide!,
    h.1, h.2.1, h.2.2.1, h.2.2.2.1⟩

/-- C15: an N:1 write of `S3_Xfer` sends the part number
`counter * P + rank` and leaves the counter one higher; so, from the counter 0
and with answers on which every call returns (transport success, a tag string
that passes the test of line 543 when it runs and has its two wrapping
characters), the j-th write of a rank is numbered j*P + rank, the numbers of one rank grow
by exactly P from one write to the next, hence strictly for P >= 1, and at
equal counter the numbers of two ranks are ordered as the ranks. -/
theorem C15_part_numbers_increase_by_P (K : Consts) (rank P : Nat) (verbose : Int)
    (file : List Nat) (len : Nat) (p : IOR_param_t) (rs : List Response)
    (hP : 1 ≤ P) (hf : p.filePerProc = false) (hc : p.part_number = 0)
    (hrs : ∀ r ∈ rs, r.rc = CURLE_OK ∧
      ¬ (verbose ≥ K.VERBOSE_4 ∧ strlen r.eTag ≠ ETAG_SIZE + 2) ∧
      2 ≤ strlen r.eTag ∧ strlen r.eTag < 2 ^ K.size_t_bits) :
    (∀ (q : IOR_param_t) (resp : Response), q.filePerProc = false →
      (S3_Xfer K rank P verbose K.WRITE file len q resp).param.part_number =
        q.part_number + 1 ∧
      (S3_Xfer K rank P verbose K.WRITE file len q resp).trace.head? =
        some (Event.s3_put
          (Url.part file (q.part_number * P + rank) (cstring q.UploadId)) len)) ∧
    (S3_Xfer_writes K rank P verbose file len p rs).param.part_number = rs.length ∧
    (∀ j, j < rs.length →
      (S3_Xfer_writes K rank P verbose file len p rs).trace[j]? =
        some (Event.s3_put (Url.part file (j * P + rank) (cstring p.UploadId)) len)) ∧
    (∀ j, part_number (j + 1) P rank = part_number j P rank + P) ∧
    (∀ i j, i < j → part_number i P rank < part_number j P rank) ∧
    (∀ j r1 r2, r1 < r2 → part_number j P r1 < part_number j P r2) := by
  obtain ⟨-, -, s3, -, -, -, s7⟩ :=
    S3_Xfer_writes_returned K rank P verbose file len rs p hf
      (fun r hr => ⟨(hrs r hr).1, (hrs r hr).2.1,
        append_in_bounds _ _ (hrs r hr).2.2.1 (hrs r hr).2.2.2⟩)
  refine ⟨?_, by rw [s3, hc, Nat.zero_add], ?_, ?_, ?_, ?_⟩
  · intro q resp hq
    simp only [S3_Xfer, Run.abort, hq, if_true, Bool.false_eq_true, if_false, part_number]
    split_ifs <;> simp
  · intro j hj
    rw [s7, List.getElem?_map, List.getElem?_range hj, hc]
    simp [part_number]
  · intro j
    unfold part_number
    ring
  · intro i j hij
    unfold part_number
    have : i * P < j * P := Nat.mul_lt_mul_of_pos_right hij (by omega)
    omega
  · intro j r1 r2 h
    unfold part_number
    omega

theorem C15_witness :
    ((1 : Nat) ≤ 3 ∧ param0.filePerProc = false ∧ param0.part_number = 0 ∧
      ∀ r ∈ rsW, r.rc = CURLE_OK ∧
        ¬ ((4 : Int) ≥ K0.VERBOSE_4 ∧ strlen r.eTag ≠ ETAG_SIZE + 2) ∧
        2 ≤ strlen r.eTag ∧ strlen r.eTag < 2 ^ K0.size_t_bits) ∧
    (S3_Xfer_writes K0 1 3 4 [102] 8 param0 rsW).trace = [Event.s3_put (Url.part [102] 1 []) 8, Event.s3_put (Url.part [102] 4 []) 8] ∧
    (S3_Xfer_writes K0 1 3 4 [102] 8 param0 rsW).param.part_number = rsW.length ∧
    (∀ j, part_number (j + 1) 3 1 = part_number j 3 1 + 3) :=
  have h := C15_part_numbers_increase_by_P K0 1 3 4 [102] 8 param0 rsW
    (by decide) (by decide) (by decide) (by decide!)
  ⟨⟨by decide, by decide, by decide, by decide!⟩, by decide!, h.2.1, h.2.2.2.1⟩

/-! ## The tag stripping of `S3_Xfer` -/

/-- C17 fails as stated: at verbosity 4 a returned tag of one character, and
one of five characters, end the call in `exit` before the stripping; nothing
is appended. -/
theorem C17_counterexample_rejected_at_verbose_4 :
    (strlen [120] < 2 ∧
      (S3_Xfer K0 0 1 4 K0.WRITE [102] 8 param0 { rc := CURLE_OK, code := 200, eTag := [120] }).status = Status.aborted ∧
      (S3_Xfer K0 0 1 4 K0.WRITE [102] 8 param0 { rc := CURLE_OK, code := 200, eTag := [120] }).trace.getLast? = some Event.exit ∧
      (S3_Xfer K0 0 1 4 K0.WRITE [102] 8 param0 { rc := CURLE_OK, code := 200, eTag := [120] }).param.etags = param0.etags) ∧
    (2 ≤ strlen (quoted [97, 98, 99]) ∧
      (S3_Xfer K0 0 1 4 K0.WRITE [102] 8 param0 { rc := CURLE_OK, code := 200, eTag := quoted [97, 98, 99] }).status = Status.aborted ∧
      (S3_Xfer K0 0 1 4 K0.WRITE [102] 8 param0 { rc := CURLE_OK, code := 200, eTag := quoted [97, 98, 99] }).trace.getLast? = some Event.exit ∧
      (S3_Xfer K0 0 1 4 K0.WRITE [102] 8 param0 { rc := CURLE_OK, code := 200, eTag := quoted [97, 98, 99] }).param.etags = param0.etags) := by
  decide!

/-- C17 as amended: for an N:1 part write whose upload succeeded at transport
level.  When the stripping of lines 554-556 is reached (verbosity below
`VERBOSE_4`, or a tag string of 34 characters), a tag string of length L >= 2
contributes exactly the L-2 characters between its first and its last one,
whatever these two are; for L < 2 the computed length is 2^w - 2 + L, not 0,
no test rejects it, and the copy of that many bytes runs past the tag string:
the call does not return.  With verbosity at least `VERBOSE_4` a tag string of
a length other than 34 ends the call in `exit` before the stripping, and
nothing is appended. -/
theorem C17_stripping_is_positional (K : Consts) (rank P : Nat) (verbose : Int)
    (file : List Nat) (len : Nat) (p : IOR_param_t) (resp : Response)
    (hf : p.filePerProc = false) (hrc : resp.rc = CURLE_OK)
    (hw : 2 ≤ K.size_t_bits) (hfit : resp.eTag.length + 1 < 2 ^ K.size_t_bits) :
    ((verbose < K.VERBOSE_4 ∨ strlen resp.eTag = ETAG_SIZE + 2) →
      (2 ≤ strlen resp.eTag →
        (S3_Xfer K rank P verbose K.WRITE file len p resp).status = Status.returned ∧
        (S3_Xfer K rank P verbose K.WRITE file len p resp).param.etags = p.etags ++ unwrapped (cstring resp.eTag) ∧
        (unwrapped (cstring resp.eTag)).length = strlen resp.eTag - 2) ∧
      (strlen resp.eTag < 2 →
        size_t_sub K.size_t_bits (strlen resp.eTag) 2 =
          2 ^ K.size_t_bits - 2 + strlen resp.eTag ∧
        size_t_sub K.size_t_bits (strlen resp.eTag) 2 ≠ 0 ∧
        (S3_Xfer K rank P verbose K.WRITE file len p resp).status = Status.aborted ∧
        (S3_Xfer K rank P verbose K.WRITE file len p resp).trace.getLast? = some Event.fault ∧
        (S3_Xfer K rank P verbose K.WRITE file len p resp).param.etags = p.etags)) ∧
    (verbose ≥ K.VERBOSE_4 → strlen resp.eTag ≠ ETAG_SIZE + 2 →
      (S3_Xfer K rank P verbose K.WRITE file len p resp).status = Status.aborted ∧
      (S3_Xfer K rank P verbose K.WRITE file len p resp).trace.getLast? = some Event.exit ∧
      (S3_Xfer K rank P verbose K.WRITE file len p resp).param.etags = p.etags) := by
  have h4 : 2 ^ 2 ≤ 2 ^ K.size_t_bits := Nat.pow_le_pow_right (by omega) hw
  have hL : strlen resp.eTag < 2 ^ K.size_t_bits := by
    have := strlen_le_length resp.eTag
    omega
  constructor
  · intro hv
    have hchk : ¬ (verbose ≥ K.VERBOSE_4 ∧ strlen resp.eTag ≠ ETAG_SIZE + 2) := by
      rintro ⟨h1, h2⟩
      rcases hv with h | h
      · exact absurd h1 (not_le.2 h)
      · exact h2 h
    constructor
    · intro h2
      have e := S3_Xfer_part_returned K rank P verbose file len p resp hf hrc hchk
        (append_in_bounds _ _ h2 hL)
      refine ⟨by rw [e], ?_, length_unwrapped _⟩
      rw [e]
      show p.etags ++ memcpy resp.eTag 1 (size_t_sub K.size_t_bits (strlen resp.eTag) 2) = _
      rw [size_t_sub_of_le _ _ _ h2 hL, memcpy_unwrapped]
    · intro h2
      have e := size_t_sub_wrap K.size_t_bits (strlen resp.eTag) 2 h2 (by omega)
      rw [S3_Xfer_part_fault K rank P verbose file len p resp hf hrc hchk
        (append_out_of_bounds _ _ hw h2 hfit)]
      refine ⟨e, ?_, rfl, rfl, rfl⟩
      rw [e]; omega
  · intro hv hl
    rw [S3_Xfer_part_exit K rank P verbose file len p resp hf hrc ⟨hv, hl⟩]
    exact ⟨rfl, rfl, rfl⟩

theorem C17_witness :
    (param0.filePerProc = false ∧ CURLE_OK = CURLE_OK ∧
      2 ≤ K0.size_t_bits ∧ [120].length + 1 < 2 ^ K0.size_t_bits) ∧
    size_t_sub K0.size_t_bits (strlen [120]) 2 = 18446744073709551615 ∧
    (S3_Xfer K0 0 1 0 K0.WRITE [102] 8 param0 { rc := CURLE_OK, code := 200, eTag := [120] }).trace =
      [Event.s3_put (Url.part [102] 0 []) 8, Event.fault] ∧
    (((0 : Int) < K0.VERBOSE_4 ∨ strlen [120] = ETAG_SIZE + 2) →
      (2 ≤ strlen [120] →
        (S3_Xfer K0 0 1 0 K0.WRITE [102] 8 param0 { rc := CURLE_OK, code := 200, eTag := [120] }).status = Status.returned ∧
        (S3_Xfer K0 0 1 0 K0.WRITE [102] 8 param0 { rc := CURLE_OK, code := 200, eTag := [120] }).param.etags = param0.etags ++ unwrapped (cstring [120]) ∧
        (unwrapped (cstring [120])).length = strlen [120] - 2) ∧
      (strlen [120] < 2 →
        size_t_sub K0.size_t_bits (strlen [120]) 2 =
          2 ^ K0.size_t_bits - 2 + strlen [120] ∧
        size_t_sub K0.size_t_bits (strlen [120]) 2 ≠ 0 ∧
        (S3_Xfer K0 0 1 0 K0.WRITE [102] 8 param0 { rc := CURLE_OK, code := 200, eTag := [120] }).status = Status.aborted ∧
        (S3_Xfer K0 0 1 0 K0.WRITE [102] 8 param0 { rc := CURLE_OK, code := 200, eTag := [120] }).trace.getLast? = some Event.fault ∧
        (S3_Xfer K0 0 1 0 K0.WRITE [102] 8 param0 { rc := CURLE_OK, code := 200, eTag := [120] }).param.etags = param0.etags)) :=
  have h := C17_stripping_is_positional K0 0 1 0 [102] 8 param0
    { rc := CURLE_OK, code := 200, eTag := [120] }
    (by decide) rfl (by decide) (by decide!)
  ⟨⟨by decide, rfl, by decide, by decide!⟩, by decide!, by decide!, h.1⟩

/-! ## The gather of `S3_Close` -/

theorem mem_collective (c : Event → Bool) (runs : List Run) (y : Run)
    (hy : y ∈ collective c runs) : ∃ x ∈ runs, y = x ∨ y = Run.waitIn c x := by
  unfold collective at hy
  split_ifs at hy
  · exact ⟨y, hy, Or.inl rfl⟩
  · obtain ⟨x, hx, rfl⟩ := List.mem_map.1 hy
    exact ⟨x, hx, Or.inr rfl⟩

theorem gatherCounts_S3_Close (K : Consts) (rank P : Nat) (fd : List Nat) (p : IOR_param_t)
    (env : CloseEnv) (hw : p.open_ = K.WRITE) (hf : p.filePerProc = false)
    (hc : p.etags.length / ETAG_SIZE = env.etag_count_max) :
    gatherCounts (S3_Close K rank P fd p env).trace =
      (if rank = 0 ∧ env.malloc_ok = false then [] else [p.etags.length]) ∧
    gatherCounts (Run.waitIn isGather (S3_Close K rank P fd p env)).trace =
      gatherCounts (S3_Close K rank P fd p env).trace ∧
    gatherCounts (Run.waitIn isBarrier (S3_Close K rank P fd p env)).trace =
      gatherCounts (S3_Close K rank P fd p env).trace ∧
    gatherCounts (Run.waitIn isBarrier
        (Run.waitIn isGather (S3_Close K rank P fd p env))).trace =
      gatherCounts (S3_Close K rank P fd p env).trace := by
  simp only [S3_Close, close_barrier, Run.abort, hw, hf, hc, Bool.not_false, if_true]
  split_ifs <;> simp_all [Run.waitIn, upTo, isGather, isBarrier, gatherCounts]

/-- C14, the defect: rank 0 holds a ledger of 32 bytes and rank 1 one of 40
bytes, both written by `S3_Xfer` at verbosity 0; both count one tag, the check
of the tag counts passes on both, and they contribute 32 and 40 bytes to the
gather, not one tag of 32 bytes each. -/
theorem C14_unequal_gather_counts_pass_the_check :
    (∀ p ∈ psG, p.open_ = K0.WRITE ∧ p.filePerProc = false ∧
      etag_count p = MPI_Allreduce_MAX (psG.map etag_count)) ∧
    psG.map (fun p => etag_count p * ETAG_SIZE) = [32, 32] ∧
    (S3_Close_all K0 [102] psG true ok200 true).map (fun r => gatherCounts r.trace) =
      [[32], [40]] := by
  decide!

/-- When the check of the tag counts passes on every rank, every ledger is a
whole number of 32-byte tags and the allocation on rank 0 succeeds, every rank
enters the gather once with its tag count times 32 bytes, its ledger length,
the same number on every rank. -/
theorem gather_counts_of_whole_ledgers (K : Consts) (fd : List Nat) (ps : List IOR_param_t)
    (post : Response) (barrier_ok : Bool)
    (hmode : ∀ p ∈ ps, p.open_ = K.WRITE ∧ p.filePerProc = false)
    (hpass : ∀ p ∈ ps, etag_count p = MPI_Allreduce_MAX (ps.map etag_count))
    (hwhole : ∀ p ∈ ps, p.etags.length % ETAG_SIZE = 0) :
    (∀ run ∈ S3_Close_all K fd ps true post barrier_ok,
      gatherCounts run.trace = [MPI_Allreduce_MAX (ps.map etag_count) * ETAG_SIZE]) ∧
    (∀ (r : Nat) (p : IOR_param_t), ps[r]? = some p →
      ∃ run : Run, (S3_Close_all K fd ps true post barrier_ok)[r]? = some run ∧
        gatherCounts run.trace = [etag_count p * ETAG_SIZE] ∧
        etag_count p * ETAG_SIZE = p.etags.length) := by
  have hlen : ∀ p ∈ ps, etag_count p * ETAG_SIZE = p.etags.length := by
    intro p hp
    unfold etag_count
    exact Nat.div_mul_cancel (Nat.dvd_of_mod_eq_zero (hwhole p hp))
  have hrun : ∀ (r : Nat) (p : IOR_param_t), p ∈ ps → ∀ y : Run,
      (y = S3_Close K r ps.length fd p (closeEnv ps true post barrier_ok) ∨
        y = Run.waitIn isGather
          (S3_Close K r ps.length fd p (closeEnv ps true post barrier_ok)) ∨
        y = Run.waitIn isBarrier
          (S3_Close K r ps.length fd p (closeEnv ps true post barrier_ok)) ∨
        y = Run.waitIn isBarrier (Run.waitIn isGather
          (S3_Close K r ps.length fd p (closeEnv ps true post barrier_ok)))) →
      gatherCounts y.trace = [etag_count p * ETAG_SIZE] := by
    intro r p hp y hy
    obtain ⟨g1, g2, g3, g4⟩ := gatherCounts_S3_Close K r ps.length fd p
      (closeEnv ps true post barrier_ok) (hmode p hp).1 (hmode p hp).2 (hpass p hp)
    have g1' : gatherCounts
        (S3_Close K r ps.length fd p (closeEnv ps true post barrier_ok)).trace =
        [etag_count p * ETAG_SIZE] := by
      rw [g1, hlen p hp]
      simp [closeEnv]
    rcases hy with h | h | h | h
    · rw [h, g1']
    · rw [h, g2, g1']
    · rw [h, g3, g1']
    · rw [h, g4, g1']
  have hall : ∀ y ∈ S3_Close_all K fd ps true post barrier_ok,
      ∃ (r : Nat) (p : IOR_param_t), ps[r]? = some p ∧
      (y = S3_Close K r ps.length fd p (closeEnv ps true post barrier_ok) ∨
        y = Run.waitIn isGather
          (S3_Close K r ps.length fd p (closeEnv ps true post barrier_ok)) ∨
        y = Run.waitIn isBarrier
          (S3_Close K r ps.length fd p (closeEnv ps true post barrier_ok)) ∨
        y = Run.waitIn isBarrier (Run.waitIn isGather
          (S3_Close K r ps.length fd p (closeEnv ps true post barrier_ok)))) := by
    intro y hy
    unfold S3_Close_all at hy
    obtain ⟨x, hx, hyx⟩ := mem_collective _ _ y hy
    obtain ⟨z, hz, hxz⟩ := mem_collective _ _ x hx
    obtain ⟨r, p, hr, rfl⟩ := mem_S3_Close_ranks _ _ _ _ _ _ z hz
    refine ⟨r, p, hr, ?_⟩
    rcases hyx with h | h <;> rcases hxz with h' | h' <;> subst h <;> subst h' <;> simp
  constructor
  · intro y hy
    obtain ⟨r, p, hr, hcase⟩ := hall y hy
    have hp : p ∈ ps := List.getElem?_mem hr
    rw [hrun r p hp y hcase, hpass p hp]
  · intro r p hr
    have hp : p ∈ ps := List.getElem?_mem hr
    have hex : ∃ run, (S3_Close_all K fd ps true post barrier_ok)[r]? = some run := by
      unfold S3_Close_all
      rw [getElem?_collective, getElem?_collective, getElem?_S3_Close_ranks, hr]
      exact ⟨_, rfl⟩
    obtain ⟨run, hrun'⟩ := hex
    refine ⟨run, hrun', ?_, hlen p hp⟩
    have hmem : run ∈ S3_Close_all K fd ps true post barrier_ok := List.getElem?_mem hrun'
    obtain ⟨r', p', hr', hcase⟩ := hall run hmem
    have hp' : p' ∈ ps := List.getElem?_mem hr'
    rw [hrun r' p' hp' run hcase, hpass p hp, hpass p' hp']

/-! ## The ledger across sessions -/

theorem flag_stays_set (a b : Nat) (hb : b ≠ 0) : (a ||| b) &&& b ≠ 0 := by
  have : (a ||| b) &&& b = b := by
    apply Nat.eq_of_testBit_eq
    intro i
    simp [Nat.testBit_land, Nat.testBit_lor]
    exact fun h => Or.inr h
  rw [this]; exact hb

theorem s3_connect_connected (K : Consts) (bh bp : Response) (p : IOR_param_t)
    (hconn : p.curl_flags &&& K.IOR_CURL_INIT ≠ 0) :
    s3_connect K bh bp p = { trace := [], param := p, status := Status.returned } := by
  unfold s3_connect
  rw [if_pos hconn]

theorem s3_connect_sets_flag (K : Consts) (bh bp : Response) (p : IOR_param_t)
    (hK : K.IOR_CURL_INIT ≠ 0) (hs : (s3_connect K bh bp p).status = Status.returned) :
    (s3_connect K bh bp p).param.curl_flags &&& K.IOR_CURL_INIT ≠ 0 := by
  unfold s3_connect at hs ⊢
  split_ifs at hs ⊢ <;> simp_all [Run.abort, flag_stays_set]

theorem S3_Close_param (K : Consts) (rank P : Nat) (fd : List Nat) (p : IOR_param_t)
    (env : CloseEnv) : (S3_Close K rank P fd p env).param = p := by
  simp only [S3_Close, close_barrier, Run.abort]
  split_ifs <;> rfl

theorem open_rank0_param (K : Consts) (name : List Nat) (nr : Bool) (env : OpenEnv)
    (t : List Event) (q : IOR_param_t) :
    ∃ io U, (open_rank0 K name nr env t q).param = { q with io_buf := io, UploadId := U } := by
  unfold open_rank0
  simp only [Run.abort]
  by_cases h1 : (nr && decide (env.put.rc ≠ CURLE_OK)) = true
  · rw [if_pos h1]; exact ⟨q.io_buf, q.UploadId, rfl⟩
  · rw [if_neg h1]
    by_cases h2 : env.post.rc ≠ CURLE_OK
    · rw [if_pos h2]
      cases nr
      · exact ⟨q.io_buf, q.UploadId, rfl⟩
      · exact ⟨env.put, q.UploadId, rfl⟩
    · rw [if_neg h2]
      rcases hx : env.xmlDoc with _ | _ | id
      · exact ⟨env.post, q.UploadId, by cases nr <;> rfl⟩
      · exact ⟨env.post, q.UploadId, by cases nr <;> rfl⟩
      · simp only []
        by_cases h3 : strlen id > K.MAX_UPLOAD_ID_SIZE
        · rw [if_pos h3]; exact ⟨env.post, q.UploadId, by cases nr <;> rfl⟩
        · rw [if_neg h3]
          exact ⟨env.post, _, by cases nr <;> rfl⟩

theorem open_write_param (K : Consts) (rank : Nat) (name : List Nat) (nr : Bool)
    (env : OpenEnv) (t : List Event) (q : IOR_param_t) :
    ∃ io U, (open_write K rank name nr env t q).param = { q with io_buf := io, UploadId := U } := by
  unfold open_write
  simp only [Run.abort]
  split_ifs
  · exact ⟨q.io_buf, q.UploadId, rfl⟩
  · exact ⟨env.put, q.UploadId, rfl⟩
  · exact ⟨q.io_buf, q.UploadId, rfl⟩
  · exact open_rank0_param K name nr env t q
  · exact ⟨q.io_buf, _, rfl⟩
  · exact ⟨q.io_buf, q.UploadId, rfl⟩

theorem open_write_frame (K : Consts) (rank : Nat) (name : List Nat) (nr : Bool)
    (env : OpenEnv) (t : List Event) (q : IOR_param_t) :
    (open_write K rank name nr env t q).param.etags = q.etags ∧
    (open_write K rank name nr env t q).param.part_number = q.part_number ∧
    (open_write K rank name nr env t q).param.filePerProc = q.filePerProc ∧
    (open_write K rank name nr env t q).param.open_ = q.open_ := by
  obtain ⟨io, U, h⟩ := open_write_param K rank name nr env t q
  rw [h]
  exact ⟨rfl, rfl, rfl, rfl⟩

theorem S3_Create_Or_Open_frame (K : Consts) (rank : Nat) (name : List Nat)
    (p : IOR_param_t) (createFile : Bool) (env : OpenEnv)
    (hconn : p.curl_flags &&& K.IOR_CURL_INIT ≠ 0) :
    (S3_Create_Or_Open K rank name p createFile env).param.etags = p.etags ∧
    (S3_Create_Or_Open K rank name p createFile env).param.part_number = p.part_number ∧
    (S3_Create_Or_Open K rank name p createFile env).param.filePerProc = p.filePerProc ∧
    (S3_Create_Or_Open K rank name p createFile env).param.open_ = p.open_ := by
  unfold S3_Create_Or_Open
  rw [s3_connect_connected K _ _ p hconn]
  simp only []
  split_ifs
  · exact open_write_frame K rank name _ env _ p
  · simp [Run.abort]
  · exact open_write_frame K rank name _ env _ { p with io_buf := env.head }
  · exact open_write_frame K rank name _ env _ p

/-- C16: `S3_Close` returns the parameters it was given, in every mode and on
every path, so it leaves the tag ledger and the part counter as they are.  A
connected rank that closes, opens again and makes further N:1 part writes has
the new tags appended after the old ledger and the counter continued, and its
next close counts and gathers the tags of both sessions. -/
theorem C16_close_keeps_ledger_and_counter (K : Consts) (rank P : Nat) (fd name : List Nat)
    (createFile : Bool) (verbose : Int) (file : List Nat) (len : Nat) (p : IOR_param_t)
    (env env2 : CloseEnv) (oenv : OpenEnv) (rs : List Response)
    (hw6 : 6 ≤ K.size_t_bits) (hconn : p.curl_flags &&& K.IOR_CURL_INIT ≠ 0)
    (hw : p.open_ = K.WRITE) (hf : p.filePerProc = false)
    (hrs : ∀ r ∈ rs, r.rc = CURLE_OK ∧ strlen r.eTag = ETAG_SIZE + 2) :
    (∀ (rank1 P1 : Nat) (fd1 : List Nat) (q : IOR_param_t) (env1 : CloseEnv),
      (S3_Close K rank1 P1 fd1 q env1).param = q) ∧
    (later_session K rank P fd name createFile verbose file len p env oenv rs).etags =
      p.etags ++ (rs.map (fun r => unwrapped (cstring r.eTag))).flatten ∧
    (later_session K rank P fd name createFile verbose file len p env oenv rs).part_number = p.part_number + rs.length ∧
    (p.etags.length % ETAG_SIZE = 0 →
      etag_count (later_session K rank P fd name createFile verbose file len p env oenv rs) = etag_count p + rs.length) ∧
    (env2.etag_count_max = etag_count (later_session K rank P fd name createFile verbose file len p env oenv rs) →
      (rank = 0 → env2.malloc_ok = true) →
      gatherCounts (S3_Close K rank P fd (later_session K rank P fd name createFile verbose file len p env oenv rs) env2).trace =
        [p.etags.length + ETAG_SIZE * rs.length]) := by
  have h64 : 2 ^ 6 ≤ 2 ^ K.size_t_bits := Nat.pow_le_pow_right (by omega) hw6
  have hpass : ∀ r ∈ rs, r.rc = CURLE_OK ∧
      ¬ (verbose ≥ K.VERBOSE_4 ∧ strlen r.eTag ≠ ETAG_SIZE + 2) ∧
      1 + size_t_sub K.size_t_bits (strlen r.eTag) 2 ≤ r.eTag.length := by
    intro r hr
    have hl := (hrs r hr).2
    exact ⟨(hrs r hr).1, fun h => h.2 hl,
      append_in_bounds _ _ (by rw [hl]; simp [ETAG_SIZE])
        (by rw [hl]; simp only [ETAG_SIZE]; omega)⟩
  have hmap : rs.map (fun r =>
        memcpy r.eTag 1 (size_t_sub K.size_t_bits (strlen r.eTag) 2)) =
      rs.map (fun r => unwrapped (cstring r.eTag)) := by
    apply List.map_congr_left
    intro r hr
    have hl := (hrs r hr).2
    rw [size_t_sub_of_le _ _ _ (by rw [hl]; simp [ETAG_SIZE])
      (by rw [hl]; simp only [ETAG_SIZE]; omega), memcpy_unwrapped]
  have h32 : ∀ b ∈ rs.map (fun r => unwrapped (cstring r.eTag)), b.length = ETAG_SIZE := by
    intro b hb
    obtain ⟨r, hr, rfl⟩ := List.mem_map.1 hb
    have hl : (cstring r.eTag).length = ETAG_SIZE + 2 := (hrs r hr).2
    rw [length_unwrapped, hl]; rfl
  obtain ⟨o1, o2, o3, o4⟩ := S3_Create_Or_Open_frame K rank name p createFile oenv hconn
  obtain ⟨-, s2, s3, -, s5, s6, -⟩ := S3_Xfer_writes_returned K rank P verbose file len rs
    (S3_Create_Or_Open K rank name p createFile oenv).param (by rw [o3, hf]) hpass
  rw [o1, hmap] at s2
  rw [o2] at s3
  rw [o4, hw] at s6
  have hlen : (later_session K rank P fd name createFile verbose file len p env oenv rs).etags.length = p.etags.length + ETAG_SIZE * rs.length := by
    unfold later_session
    rw [S3_Close_param, s2, List.length_append, length_flatten_records ETAG_SIZE _ h32,
      List.length_map, Nat.mul_comm]
  refine ⟨fun rank1 P1 fd1 q env1 => S3_Close_param K rank1 P1 fd1 q env1, ?_, ?_, ?_, ?_⟩
  · unfold later_session
    rw [S3_Close_param, s2]
  · unfold later_session
    rw [S3_Close_param, s3]
  · intro hm
    unfold etag_count
    rw [hlen]
    obtain ⟨m, hm'⟩ := Nat.dvd_of_mod_eq_zero hm
    rw [hm', Nat.mul_comm ETAG_SIZE rs.length, ← Nat.mul_comm m, ← Nat.add_mul]
    simp [ETAG_SIZE]
  · intro hmax h0
    have hwL : (later_session K rank P fd name createFile verbose file len p env oenv rs).open_ = K.WRITE := by
      unfold later_session; rw [S3_Close_param, s6]
    have hfL : (later_session K rank P fd name createFile verbose file len p env oenv rs).filePerProc = false := by
      unfold later_session; rw [S3_Close_param, s5]
    have g := (gatherCounts_S3_Close K rank P fd (later_session K rank P fd name createFile verbose file len p env oenv rs) env2 hwL hfL hmax.symm).1
    rw [g, hlen]
    by_cases hr : rank = 0
    · simp [hr, h0 hr]
    · simp [hr]

theorem C16_witness :
    ((6 : Nat) ≤ K0.size_t_bits ∧ paramA.curl_flags &&& K0.IOR_CURL_INIT ≠ 0 ∧
      paramA.open_ = K0.WRITE ∧ paramA.filePerProc = false ∧
      ∀ r ∈ rsW, r.rc = CURLE_OK ∧ strlen r.eTag = ETAG_SIZE + 2) ∧
    (S3_Close K0 0 1 [102] paramA envA).status = Status.returned ∧
    (S3_Close K0 0 1 [102] paramA envA).param = paramA ∧
    paramL.etags = tagB 0 0 ++ tagB 0 1 ++ tagB 0 2 ++ tagB 1 0 ++ tagB 1 1 ∧
    gatherCounts (S3_Close K0 0 1 [102] paramL (closeEnv [paramL] true ok200 true)).trace =
      [160] ∧
    (later_session K0 0 1 [102] [102] true 0 [102] 8 paramA envA (envOk [117, 49, 50])
      rsW).part_number = paramA.part_number + rsW.length :=
  have h := C16_close_keeps_ledger_and_counter K0 0 1 [102] [102] true 0 [102] 8 paramA envA
    (closeEnv [paramL] true ok200 true) (envOk [117, 49, 50]) rsW
    (by decide) (by decide) (by decide) (by decide) (by decide!)
  ⟨⟨by decide, by decide, by decide, by decide, by decide!⟩, by decide!, by decide!,
    by decide!, by decide!, h.2.2.1⟩

end S3
